import Mathlib

/-!
Shallow embedding of the conversation core of `src/main.py` (the canonical,
most complete draft of the bot).  Python dictionaries are modelled as ordered
association lists of `PyVal`, the per-state handler lists of the
`ConversationHandler` are modelled as ordered rule tables (first match wins,
like python-telegram-bot), and every repository / transport interaction is
modelled through an explicit `Env` of externally determined results.
Keyboard layouts attached to prompts are presentation-only and are not
tracked by handler results; the pagination helper that builds them is
modelled separately as the pure function `build_menu_paginated`.
-/

/-- Python values as they occur in `context.user_data` of `src/main.py`:
`None`, strings, ints, dicts and lists. -/
inductive PyVal where
  | pnone
  | pstr (s : String)
  | pint (n : Int)
  | pdict (entries : List (String × PyVal))
  | plist (items : List PyVal)

open PyVal

/-- `context.user_data`: a Python dict with string keys (ordered, as Python
dicts preserve insertion order). -/
abbrev UserData := List (String × PyVal)

/-- `d.get(k)` / `d.get(k, None)`: `none` means the key is absent. -/
def dictFind? (d : List (String × PyVal)) (k : String) : Option PyVal :=
  (d.find? (fun kv => kv.1 = k)).map (fun kv => kv.2)

/-- `d.get(k, dflt)`. -/
def dictGetD (d : List (String × PyVal)) (k : String) (dflt : PyVal) : PyVal :=
  (dictFind? d k).getD dflt

/-- `d[k] = v`: overwrite in place when the key exists (keeping its
position, as Python dicts do), append otherwise. -/
def dictSet (d : List (String × PyVal)) (k : String) (v : PyVal) :
    List (String × PyVal) :=
  if d.any (fun kv => kv.1 = k) then
    d.map (fun kv => if kv.1 = k then (k, v) else kv)
  else
    d ++ [(k, v)]

/-- `d.pop(k, None)`. -/
def dictPop (d : List (String × PyVal)) (k : String) : List (String × PyVal) :=
  d.filter (fun kv => kv.1 ≠ k)

/-- `k in d`. -/
def dictMem (d : List (String × PyVal)) (k : String) : Bool :=
  d.any (fun kv => kv.1 = k)

/-- `list(d.keys())`. -/
def dictKeys (d : List (String × PyVal)) : List String :=
  d.map (fun kv => kv.1)

/-- Python truthiness for the values above (`bool(x)`). -/
def pyTruthy : PyVal → Bool
  | pnone => false
  | pstr s => s ≠ ""
  | pint n => n ≠ 0
  | pdict d => !d.isEmpty
  | plist l => !l.isEmpty

/-- `str(x)` for the values interpolated into f-strings by the handlers
(only `None`, strings and ints actually occur there). -/
def pyStr : PyVal → String
  | pnone => "None"
  | pstr s => s
  | pint n => toString n
  | pdict _ => "<dict>"
  | plist _ => "<list>"

-- --- Keyboard Buttons & Mappings (verbatim from src/main.py) ---

def HOME_BUTTON : String := "صفحه اصلی 🏠"
def BACK_BUTTON : String := "بازگشت 🔙"
def SKIP_BUTTON : String := "رد شدن ⏭️"
def NEXT_PAGE_BUTTON : String := "صفحه بعد ◀️"
def PREV_PAGE_BUTTON : String := "▶️ صفحه قبل"
def FINISH_SENDING_BUTTON : String := "اتمام ارسال ✅"
def NO_BUTTON : String := "نه ❌"
def YES_BUTTON : String := "بله ✅"
def DELETE_BUTTON : String := "حذف کردن 🗑️"
def YES_CONTINUE : String := "بله، ادامه✅"
def NO_EDIT : String := "خیر، ویرایش متن✏️"
def DOCUMENTS_BUTTON : String := "مدارک 📑"

def FIELD_TO_COLUMN_MAP : List (String × String) :=
  [("نام حساب 🧾", "account_name"),
   ("نام بانک 🏦", "bank_name"),
   ("شماره حساب 🔢", "account_number"),
   ("شماره کارت 💳", "card_number"),
   ("شماره شبا 🌐", "shaba_number"),
   ("عکس کارت 🖼️", "card_photo_id")]

-- --- String helpers used by the handlers ---

/-- `str.maketrans` table of `src/main.py` lines 763-766: Persian digits
۰-۹ and Arabic-Indic digits ٠-٩ each map to the corresponding ASCII digit. -/
def PERSIAN_TO_ENGLISH_DIGITS : List (Char × Char) :=
  [('۰', '0'), ('۱', '1'), ('۲', '2'), ('۳', '3'), ('۴', '4'),
   ('۵', '5'), ('۶', '6'), ('۷', '7'), ('۸', '8'), ('۹', '9'),
   ('٠', '0'), ('١', '1'), ('٢', '2'), ('٣', '3'), ('٤', '4'),
   ('٥', '5'), ('٦', '6'), ('٧', '7'), ('٨', '8'), ('٩', '9')]

/-- The translation applied to one character by `str.translate` with the
table above: mapped characters are replaced, all others pass through. -/
def translateChar (c : Char) : Char :=
  match PERSIAN_TO_ENGLISH_DIGITS.find? (fun p => p.1 = c) with
  | some p => p.2
  | none => c

/-- `persian_to_english_digits` of `src/main.py` (the `isinstance` guard is
vacuous here since the argument is always a string). -/
def persian_to_english_digits (s : String) : String :=
  String.mk (s.data.map translateChar)

/-- Python `str.strip()` (we approximate the full Unicode whitespace class
by ASCII whitespace, `Char.isWhitespace`; every string this program strips
uses only ASCII whitespace). -/
def pyStrip (s : String) : String :=
  String.mk (((s.data.dropWhile Char.isWhitespace).reverse.dropWhile
    Char.isWhitespace).reverse)

/-- `s.strip(c)` for a single strip character, as in `.strip(')')`. -/
def pyStripChar (c : Char) (s : String) : String :=
  String.mk (((s.data.dropWhile (fun x => x = c)).reverse.dropWhile
    (fun x => x = c)).reverse)

/-- `s.split(sep)[-1]`: the part of `s` after the last occurrence of `sep`
(`s` itself when `sep` does not occur). -/
def pySplitLast (sep : Char) (s : String) : String :=
  String.mk ((s.data.reverse.takeWhile (fun x => x ≠ sep)).reverse)

/-- Whether a message text would carry a bot-command entity
(`filters.COMMAND`): it starts with `/`. -/
def isCommandText (s : String) : Bool :=
  match s.data with
  | '/' :: _ => true
  | _ => false

/-- Split a message into its lines (`"\n"`-separated). -/
def splitLinesAux : List Char → List Char → List String
  | [], cur => [String.mk cur.reverse]
  | c :: cs, cur =>
    if c = '\n' then String.mk cur.reverse :: splitLinesAux cs []
    else splitLinesAux cs (c :: cur)

def splitLines (s : String) : List String := splitLinesAux s.data []

/-- One character of Python's `\d` (Unicode decimal digits), restricted to
the three digit families this program can meet: ASCII, Persian and
Arabic-Indic. -/
def pyIsDecimalDigit (c : Char) : Bool :=
  (translateChar c).isDigit

/-- The numeric value of a Python decimal digit (see `pyIsDecimalDigit`). -/
def pyDigitVal (c : Char) : Nat :=
  (translateChar c).toNat - 48

/-- Python `int(s)`: strip whitespace, optional sign, then decimal digits
(Unicode digits included); `none` models the raised `ValueError`. -/
def pyParseInt (s : String) : Option Int :=
  let t := (pyStrip s).data
  let signAndDigits : Int × List Char :=
    match t with
    | '-' :: rest => (-1, rest)
    | '+' :: rest => (1, rest)
    | l => (1, l)
  let sign := signAndDigits.1
  let digits := signAndDigits.2
  if digits = [] then none
  else if digits.all pyIsDecimalDigit then
    some (sign * (digits.foldl (fun a c => a * 10 + (pyDigitVal c : Int)) 0))
  else none

/-- The characters escaped by `telegram.helpers.escape_markdown(-, version=2)`. -/
def mdv2Special : List Char := "_*[]()~`>#+-=|\x7b\x7d.!".data

/-- `escape_markdown(s, version=2)`: prefix each special character with a
backslash. -/
def escape_markdown (s : String) : String :=
  String.mk (s.data.flatMap (fun c =>
    if mdv2Special.contains c then ['\\', c] else [c]))

/-- `html.escape` with its default `quote=True`. -/
def htmlEscape (s : String) : String :=
  String.join (s.data.map (fun c =>
    if c = '&' then "&amp;"
    else if c = '<' then "&lt;"
    else if c = '>' then "&gt;"
    else if c = '"' then "&quot;"
    else if c = '\'' then "&#x27;"
    else String.mk [c]))

-- --- Pagination Helper (src/main.py lines 167-193) ---

/-- One structural step of the chunking recursion; the first argument is a
fuel bound on the number of chunks (`xs.length` always suffices when
`0 < n`, since every chunk consumes at least one element). -/
def chunkGo (n : Nat) : Nat → List α → List (List α)
  | 0, _ => []
  | f + 1, xs =>
    if n = 0 then []
    else if xs.isEmpty then []
    else xs.take n :: chunkGo n f (xs.drop n)

/-- The list-comprehension chunking
`[xs[i:i+n] for i in range(0, len(xs), n)]` (empty for `n = 0`, where the
Python `range` step would be invalid). -/
def chunkList (n : Nat) (xs : List α) : List (List α) :=
  chunkGo n xs.length xs

/-- `build_menu_paginated` of `src/main.py`: slice the current page, chunk
it into rows of `n_cols`, append the pagination-control row when nonempty,
then the footer rows, and a final Home row unless some footer row already
contains the Home button.  The `ReplyKeyboardMarkup` wrapper is dropped; the
result is the keyboard's rows.  `page` is modelled as `Nat` (every call in
the source passes a non-negative page). -/
def build_menu_paginated (buttons : List String) (page : Nat) (n_cols : Nat)
    (items_per_page : Nat) (footer_buttons : Option (List (List String))) :
    List (List String) :=
  let start_index := page * items_per_page
  let end_index := start_index + items_per_page
  let paginated_buttons := (buttons.drop start_index).take items_per_page
  let menu := chunkList n_cols paginated_buttons
  let pagination_controls :=
    (if page > 0 then [PREV_PAGE_BUTTON] else []) ++
    (if end_index < buttons.length then [NEXT_PAGE_BUTTON] else [])
  let menu := if pagination_controls ≠ [] then menu ++ [pagination_controls] else menu
  match footer_buttons with
  | some rows =>
    if rows ≠ [] then
      menu ++ rows ++
        (if rows.any (fun row => row.contains HOME_BUTTON) then [] else [[HOME_BUTTON]])
    else menu ++ [[HOME_BUTTON]]
  | none => menu ++ [[HOME_BUTTON]]

-- --- Conversation States (src/main.py lines 43-57, in source order) ---

/-- The 39 conversation states of `src/main.py`. -/
inductive ConvState where
  | MAIN_MENU
  | ADMIN_MENU | ADMIN_ADD_USER_CONFIRM | ADMIN_REMOVE_USER
  | VIEW_CHOOSE_PERSON | VIEW_CHOOSE_ACCOUNT | VIEW_ACCOUNT_DETAILS
  | VIEW_DISPLAY_ACCOUNT_DETAILS | VIEW_CHOOSE_DOCUMENT | VIEW_DISPLAY_DOCUMENT
  | EDIT_MENU
  | ADD_CHOOSE_PERSON_TYPE | ADD_NEW_PERSON_NAME | ADD_CHOOSE_EXISTING_PERSON
  | ADD_CHOOSE_ITEM_TYPE
  | ADD_ACCOUNT_BANK | ADD_ACCOUNT_NAME | ADD_ACCOUNT_NUMBER
  | ADD_ACCOUNT_CARD | ADD_ACCOUNT_SHABA | ADD_ACCOUNT_PHOTO
  | ADD_DOC_NAME | ADD_DOC_TEXT | ADD_DOC_FILES | ADD_DOC_SAVE
  | DELETE_CHOOSE_TYPE | DELETE_CHOOSE_PERSON | DELETE_CONFIRM_PERSON
  | DELETE_CHOOSE_ACCOUNT_FOR_PERSON | DELETE_CHOOSE_ACCOUNT | DELETE_CONFIRM_ACCOUNT
  | CHANGE_CHOOSE_PERSON | CHANGE_CHOOSE_TARGET | CHANGE_PROMPT_PERSON_NAME
  | CHANGE_SAVE_PERSON_NAME
  | CHANGE_CHOOSE_ACCOUNT | CHANGE_CHOOSE_FIELD | CHANGE_PROMPT_FIELD_VALUE
  | CHANGE_SAVE_FIELD_VALUE
  deriving DecidableEq, Repr

open ConvState

/-- What a handler returns: a next conversation state,
`ConversationHandler.END`, or an uncaught Python exception (`crash` marks
the dead branches where the source would raise, e.g. a `KeyError` on a
missing `user_data` key; the framework would then keep the old state). -/
inductive NextStep where
  | state (s : ConvState)
  | endConv
  | crash
  deriving DecidableEq, Repr

/-- One inbound Telegram update, as far as the handlers inspect it:
a text message, a photo (by file id) or a document file (by file id). -/
inductive Event where
  | text (s : String)
  | photo (fileId : String)
  | docFile (fileId : String)
  deriving DecidableEq, Repr

/-- `update.message.text`, with `""` standing for Python's `None` on
non-text messages (`None` compares unequal to every button label, and is
falsy, exactly like `""`). -/
def evText : Event → String
  | .text s => s
  | _ => ""

/-- `get_chat` outcome in `admin_add_user_confirm`: found, `BadRequest`
(id not found), or another exception. -/
inductive ChatRes where
  | found (id : Int) (first_name : Option String) (username : Option String)
  | notFound
  | err
  deriving DecidableEq, Repr

/-- Outcome of an INSERT/UPDATE on `persons`: success (with the id a
`RETURNING id` would produce), `psycopg2.IntegrityError` (duplicate name),
or another `psycopg2.Error`. -/
inductive InsertRes where
  | ok (id : Int)
  | dup
  | err
  deriving DecidableEq, Repr

/-- `SELECT bank_name, account_number, card_number, shaba_number,
card_photo_id FROM accounts WHERE id = ...` (each column nullable). -/
structure AccountRow where
  bank_name : Option String
  account_number : Option String
  card_number : Option String
  shaba_number : Option String
  card_photo_id : Option String
  deriving DecidableEq, Repr

/-- Everything outside the session that a single inbound event can observe:
the caller's identity, and the repository / transport responses the
handlers would receive while processing it. -/
structure Env where
  /-- `is_admin(update.effective_user.id)`. -/
  isAdminUser : Bool
  /-- `is_authorized(user.id)`: `none` models the `None` returned when the
  database connection fails inside `is_authorized`. -/
  authStatus : Option Bool
  /-- whether `get_db_connection()` succeeds in the handler body. -/
  dbConn : Bool
  userId : Int
  userFirstName : Option String
  userUsername : Option String
  /-- `SELECT id, name FROM persons ORDER BY name`. -/
  persons : List (Int × String)
  /-- `SELECT id, bank_name FROM accounts WHERE person_id = ...`. -/
  accountsFor : List (Int × Option String)
  /-- `SELECT id, doc_name FROM documents WHERE person_id = ...`. -/
  documentsFor : List (Int × String)
  /-- `SELECT telegram_id, first_name FROM users`. -/
  usersAll : List (Int × String)
  /-- the same query restricted to `telegram_id != ADMIN_TELEGRAM_ID`. -/
  usersNonAdmin : List (Int × String)
  /-- `SELECT 1 FROM users WHERE telegram_id = ...` nonempty. -/
  targetUserExists : Bool
  getChatRes : ChatRes
  insertPersonRes : InsertRes
  updatePersonRes : InsertRes
  /-- success of the generic INSERT/UPDATE/DELETE writes (accounts,
  documents, users) the other handlers issue. -/
  dbWriteOk : Bool
  /-- `cur.rowcount` after `DELETE FROM users ...`. -/
  deleteRowcount : Nat
  accountRow : Option AccountRow
  docRow : Option (String × Option String × List String)
  /-- whether `bot.send_message` to a third party succeeds. -/
  notifyOk : Bool
  /-- whether `bot.send_photo` / `bot.send_document` succeed. -/
  sendOk : Bool
  deriving Repr

/-- The observable outcome of handling one event: the texts sent to the
current chat, the photo and document file ids the bot attempted to send,
the new `user_data`, and the returned next step. -/
structure HRes where
  msgs : List String
  photos : List String
  files : List String
  ud : UserData
  next : NextStep

/-- Prepend messages already sent before a tail call into another handler
(`return await other_handler(update, context)`). -/
def HRes.withMsgs (ms : List String) (r : HRes) : HRes :=
  { r with msgs := ms ++ r.msgs }

def dbErrMsg : String := "⚠️ خطا در اتصال به پایگاه داده. لطفاً بعداً دوباره تلاش کنید."

-- --- Start & Main Menu Handlers ---

/-- `start` (src/main.py lines 238-314).  The admin-notification text of
the unauthorized branch reproduces the Python conditional-expression parse
of lines 265-271 (adjacent literals concatenate more tightly than
`... if ... else ...`). -/
def start (env : Env) (ud : UserData) : HRes :=
  match env.authStatus with
  | none => ⟨[dbErrMsg], [], [], ud, .endConv⟩
  | some false =>
    let user_msg :=
      "🚫 شما اجازه دسترسی به این ربات را ندارید.\nبرای درخواست دسترسی، این شناسه را برای ادمین ارسال کنید:\n"
        ++ toString env.userId
    let admin_msg :=
      match env.userUsername with
      | some u =>
        "📥 درخواست دسترسی جدید!\n\n👤 کاربر: " ++ (env.userFirstName.getD "")
          ++ "\n🔖 نام کاربری: @" ++ u
      | none =>
        "ندارد" ++ "\n🆔 شناسه: " ++ toString env.userId
          ++ "\n\nبرای افزودن این کاربر، به بخش ادمین رفته و شناسه بالا را وارد کنید."
    let failMsgs :=
      if env.notifyOk then []
      else ["⚠️ خطا در ارسال درخواست به مدیر. لطفاً بعداً دوباره تلاش کنید."]
    let _ := admin_msg
    ⟨escape_markdown user_msg :: failMsgs, [], [], ud, .endConv⟩
  | some true =>
    ⟨[escape_markdown ("سلام " ++ (env.userFirstName.getD "کاربر") ++ "! به دفترچه بانکی خوش آمدید.")],
      [], [], ud, .state MAIN_MENU⟩

/-- `main_menu`: clear `user_data`, then `start`. -/
def main_menu (env : Env) (_ud : UserData) : HRes :=
  start env []

/-- `cancel` (the second definition, src/main.py lines 1471-1474, which
shadows the first): message, clear, then `start`. -/
def cancel (env : Env) (_ud : UserData) : HRes :=
  HRes.withMsgs ["عملیات لغو شد."] (start env [])

/-- Result of a branch where the Python handler would raise an uncaught
exception (e.g. `KeyError` on a missing `user_data` key). -/
def crashRes (ud : UserData) : HRes := ⟨[], [], [], ud, .crash⟩

-- --- Admin Flow Handlers ---

def admin_menu (env : Env) (ud : UserData) : HRes :=
  if !env.isAdminUser then
    ⟨["🚫 این بخش فقط برای ادمین است."], [], [], ud, .state MAIN_MENU⟩
  else
    ⟨["منوی ادمین:"], [], [], ud, .state ADMIN_MENU⟩

def admin_view_users (env : Env) (ud : UserData) : HRes :=
  if !env.isAdminUser then
    ⟨["🚫 این بخش فقط برای ادمین است."], [], [], ud, .state MAIN_MENU⟩
  else if !env.dbConn then
    ⟨["خطا در اتصال به پایگاه داده."], [], [], ud, .state ADMIN_MENU⟩
  else if env.usersAll.isEmpty then
    ⟨["هیچ کاربری ثبت نشده است."], [], [], ud, .state ADMIN_MENU⟩
  else
    let users_lines := env.usersAll.map (fun u =>
      "👤 " ++ (if u.2 ≠ "" then u.2 else "بدون‌نام") ++ "\n🆔 " ++ toString u.1)
    let message := "لیست کاربران مجاز:\n\n" ++ String.intercalate "\n\n" users_lines
    ⟨[escape_markdown message], [], [], ud, .state ADMIN_MENU⟩

def admin_prompt_add_user (_env : Env) (ud : UserData) : HRes :=
  ⟨["شناسه عددی تلگرام کاربر جدید را وارد کنید:"], [], [], ud, .state ADMIN_ADD_USER_CONFIRM⟩

def admin_prompt_remove_user (env : Env) (ud : UserData) : HRes :=
  if !env.dbConn then admin_menu env ud
  else if env.usersNonAdmin.isEmpty then
    HRes.withMsgs ["هیچ کاربری برای حذف وجود ندارد."] (admin_menu env ud)
  else
    ⟨["کدام کاربر را حذف می‌کنید؟"], [], [], ud, .state ADMIN_REMOVE_USER⟩

/-- `admin_remove_user`: the id is recovered from the pressed button label
via `int(update.message.text.split('(')[-1].strip(')'))`. -/
def admin_remove_user (env : Env) (text : String) (ud : UserData) : HRes :=
  if !env.isAdminUser then
    ⟨["🚫 این بخش فقط برای ادمین است."], [], [], ud, .state MAIN_MENU⟩
  else
    match pyParseInt (pyStripChar ')' (pySplitLast '(' text)) with
    | none =>
      ⟨["❌ انتخاب نامعتبر. از دکمه‌ها استفاده کنید."], [], [], ud, .state ADMIN_REMOVE_USER⟩
    | some uid =>
      if !env.dbConn then
        HRes.withMsgs ["⚠️ خطا در اتصال به پایگاه داده."] (admin_menu env ud)
      else if !env.dbWriteOk then
        HRes.withMsgs ["❌ خطایی در حذف کاربر رخ داد."] (admin_menu env ud)
      else if env.deleteRowcount > 0 then
        HRes.withMsgs [escape_markdown ("✅ کاربر " ++ toString uid ++ " حذف شد.")]
          (admin_menu env ud)
      else
        HRes.withMsgs ["⚠️ کاربر مورد نظر یافت نشد."] (admin_menu env ud)

def admin_add_user_confirm (env : Env) (text : String) (ud : UserData) : HRes :=
  if !env.isAdminUser then
    ⟨["🚫 این بخش فقط برای ادمین است."], [], [], ud, .state MAIN_MENU⟩
  else
    match pyParseInt text with
    | none =>
      ⟨["❌ شناسه نامعتبر است. لطفاً یک عدد وارد کنید."], [], [], ud,
        .state ADMIN_ADD_USER_CONFIRM⟩
    | some _uid =>
      if !env.dbConn then
        ⟨["⚠️ خطا در اتصال به پایگاه داده."], [], [], ud, .state ADMIN_MENU⟩
      else if env.targetUserExists then
        HRes.withMsgs ["⚠️ این کاربر از قبل وجود دارد."] (admin_menu env ud)
      else
        match env.getChatRes with
        | .found cid fn un =>
          let first_name := match fn with
            | some f => if f ≠ "" then f else "بدون‌نام"
            | none => "بدون‌نام"
          let username := match un with
            | some u => if u ≠ "" then "@" ++ u else "ندارد"
            | none => "ندارد"
          let user_info := pdict
            [("id", pstr (toString cid)), ("first_name", pstr first_name),
             ("username", pstr username)]
          let message_raw :=
            "اطلاعات کاربر:\n👤 نام: " ++ first_name ++ "\n🆔 شناسه: " ++ toString cid
              ++ "\n🔖 نام کاربری: " ++ username ++ "\n\nآیا این کاربر را اضافه می‌کنید؟"
          ⟨[escape_markdown message_raw], [], [], dictSet ud "user_to_add" user_info,
            .state ADMIN_ADD_USER_CONFIRM⟩
        | .notFound =>
          ⟨["❌ کاربری با این شناسه یافت نشد. شناسه را بررسی کنید."], [], [], ud,
            .state ADMIN_ADD_USER_CONFIRM⟩
        | .err =>
          HRes.withMsgs ["خطایی در دریافت اطلاعات کاربر رخ داد."] (admin_menu env ud)

def admin_add_user_execute (env : Env) (ud : UserData) : HRes :=
  match dictFind? ud "user_to_add" with
  | none => admin_menu env ud
  | some v =>
    if !pyTruthy v then admin_menu env ud
    else
      match v with
      | pdict info =>
        match dictFind? info "id" with
        | none => crashRes ud
        | some idv =>
          if !env.dbConn then
            HRes.withMsgs ["خطا در اتصال به پایگاه داده."] (admin_menu env ud)
          else if !env.dbWriteOk then
            HRes.withMsgs ["❌ خطایی در افزودن کاربر رخ داد."]
              (admin_menu env (dictPop ud "user_to_add"))
          else if env.notifyOk then
            HRes.withMsgs
              [escape_markdown ("✅ کاربر `" ++ pyStr idv ++ "` اضافه شد و به او اطلاع داده شد.")]
              (admin_menu env (dictPop ud "user_to_add"))
          else
            HRes.withMsgs
              [escape_markdown ("✅ کاربر `" ++ pyStr idv ++ "` اضافه شد، اما ارسال پیام به او ناموفق بود.")]
              (admin_menu env (dictPop ud "user_to_add"))
      | _ => crashRes ud

-- --- View Information Flow ---

/-- `get_persons_from_db`: on connection failure it sends the error text
and returns the constant `MAIN_MENU` (which is the int 0, not `None`);
`Sum.inl 0` models that return value, `Sum.inr` the fetched rows. -/
def get_persons_from_db (env : Env) (ud : UserData) :
    List String × UserData × Sum Int (List (Int × String)) :=
  if !env.dbConn then ([dbErrMsg], ud, Sum.inl 0)
  else
    let persons := env.persons
    let ud := dictSet ud "persons_list_tuples"
      (plist (persons.map (fun p => plist [pint p.1, pstr p.2])))
    let ud := dictSet ud "persons_list_dict"
      (pdict (persons.foldl (fun d p => dictSet d p.2 (pint p.1)) []))
    ([], ud, Sum.inr persons)

/-- `get_accounts_for_person_from_db`: `none` models the `None` returned on
connection failure.  Button labels are `bank_name or 'N/A'`. -/
def get_accounts_for_person_from_db (env : Env) (ud : UserData) :
    UserData × Option (List (Int × Option String)) :=
  if !env.dbConn then (ud, none)
  else
    let accounts := env.accountsFor
    let ud := dictSet ud "accounts_list_tuples"
      (plist (accounts.map (fun a =>
        plist [pint a.1, match a.2 with | some b => pstr b | none => pnone])))
    let ud := dictSet ud "accounts_list_dict"
      (pdict (accounts.foldl (fun d a =>
        dictSet d
          (match a.2 with | some b => if b ≠ "" then b else "N/A" | none => "N/A")
          (pint a.1)) []))
    (ud, some accounts)

/-- `get_documents_for_person_from_db`: returns `[]` (silently) on
connection failure. -/
def get_documents_for_person_from_db (env : Env) (ud : UserData) :
    UserData × List (Int × String) :=
  if !env.dbConn then (ud, [])
  else
    let docs := env.documentsFor
    let ud := dictSet ud "documents_list_dict"
      (pdict (docs.foldl (fun d p => dictSet d p.2 (pint p.1)) []))
    (ud, docs)

def view_choose_person (env : Env) (ud : UserData) (page : Int) : HRes :=
  let fetched := get_persons_from_db env ud
  let ms := fetched.1
  let ud1 := fetched.2.1
  -- the `persons is None` test of line 573 is never true (see
  -- `get_persons_from_db`), so only the `not persons` test decides
  let emptyish := match fetched.2.2 with
    | Sum.inl _ => true
    | Sum.inr l => l.isEmpty
  if emptyish then
    HRes.withMsgs (ms ++ ["هیچ شخصی ثبت نشده. از منوی ویرایش، شخص جدید اضافه کنید."])
      (start env ud1)
  else
    let page := match dictFind? ud1 "page" with
      | some (pint p) => p
      | some _ => page    -- a non-int stored page never occurs
      | none => page
    let ud2 := dictSet ud1 "page" (pint page)
    ⟨ms ++ ["اطلاعات کدام شخص را می‌خواهید؟"], [], [], ud2, .state VIEW_CHOOSE_PERSON⟩

def view_choose_account (env : Env) (person_name : String) (ud : UserData) : HRes :=
  if person_name = BACK_BUTTON then view_choose_person env ud 0
  else
    let lookup := match dictGetD ud "persons_list_dict" (pdict []) with
      | pdict d => dictGetD d person_name pnone
      | _ => pnone
    let pidOpt : Option PyVal :=
      if pyTruthy lookup then some lookup
      else if dictMem ud "selected_person_id" then dictFind? ud "selected_person_id"
      else none
    match pidOpt with
    | none =>
      ⟨["❌ انتخاب نامعتبر. از دکمه‌ها استفاده کنید."], [], [], ud, .state VIEW_CHOOSE_PERSON⟩
    | some pid =>
      let ud := dictSet ud "selected_person_id" pid
      let ud := dictSet ud "selected_person_name" (pstr person_name)
      let fetched := get_documents_for_person_from_db env ud
      let ud := fetched.1
      let documents := fetched.2
      let account_buttons := match dictGetD ud "accounts_list_dict" (pdict []) with
        | pdict d => dictKeys d
        | _ => []
      let buttons := account_buttons ++ (if !documents.isEmpty then [DOCUMENTS_BUTTON] else [])
      if buttons.isEmpty then
        HRes.withMsgs ["هیچ حساب یا مدرکی برای '" ++ person_name ++ "' ثبت نشده."]
          (view_choose_person env ud 0)
      else
        ⟨["اطلاعات '" ++ person_name ++ "' \nکدام مورد را می‌خواهید مشاهده کنید؟"], [], [],
          ud, .state VIEW_DISPLAY_ACCOUNT_DETAILS⟩

def view_person_paginator (env : Env) (text : String) (ud : UserData) : HRes :=
  let current := match dictFind? ud "page" with
    | some (pint p) => p
    | _ => 0
  if text = NEXT_PAGE_BUTTON then view_choose_person env ud (current + 1)
  else if text = PREV_PAGE_BUTTON then view_choose_person env ud (current - 1)
  else view_choose_account env text ud

def view_choose_document (env : Env) (text : String) (ud : UserData) : HRes :=
  let person_name := pyStr (dictGetD ud "selected_person_name" (pstr "شخص انتخاب شده"))
  let doc_buttons := match dictGetD ud "documents_list_dict" (pdict []) with
    | pdict d => dictKeys d
    | _ => []
  if doc_buttons.isEmpty then
    HRes.withMsgs ["هیچ مدرکی برای این شخص یافت نشد."] (view_choose_account env text ud)
  else
    ⟨["مدارک '" ++ person_name ++ "'. کدام مدرک؟"], [], [], ud, .state VIEW_CHOOSE_DOCUMENT⟩

def view_display_document_details (env : Env) (text : String) (ud : UserData) : HRes :=
  let doc_id := match dictGetD ud "documents_list_dict" (pdict []) with
    | pdict d => dictGetD d text pnone
    | _ => pnone
  if !pyTruthy doc_id then
    ⟨["❌ انتخاب نامعتبر. لطفاً از دکمه‌ها استفاده کنید."], [], [], ud, .state VIEW_CHOOSE_DOCUMENT⟩
  else if !env.dbConn then
    ⟨["خطا در اتصال به پایگاه داده."], [], [], ud, .state MAIN_MENU⟩
  else
    match env.docRow with
    | none =>
      HRes.withMsgs ["خطا: مدرک یافت نشد."] (view_choose_document env text ud)
    | some (doc_name, doc_text, file_ids) =>
      let message_raw := "📄 مدرک: " ++ doc_name ++ "\n\n" ++
        (match doc_text with
         | some t => if t ≠ "" then "📝 متن:\n" ++ t ++ "\n" else ""
         | none => "")
      let fileMsgs :=
        if file_ids.isEmpty then []
        else "فایل‌های ضمیمه:" ::
          (if env.sendOk then []
           else file_ids.map (fun f => "⚠️ فایل با شناسه `" ++ f ++ "` قابل بارگذاری نبود."))
      ⟨escape_markdown message_raw :: fileMsgs, [], file_ids, ud, .state VIEW_CHOOSE_DOCUMENT⟩

/-- The local `mono` helper of `view_display_account_details`: digits to
ASCII, HTML-escape, wrap in `<code>`. -/
def mono (value : Option String) : Option String :=
  match value with
  | none => none
  | some v => some ("<code>" ++ htmlEscape (persian_to_english_digits v) ++ "</code>")

def view_display_account_details (env : Env) (account_key : String) (ud : UserData) : HRes :=
  let account_id := match dictGetD ud "accounts_list_dict" (pdict []) with
    | pdict d => dictGetD d account_key pnone
    | _ => pnone
  if !pyTruthy account_id then
    ⟨["❌ انتخاب نامعتبر. از دکمه‌ها استفاده کنید."], [], [], ud, .state VIEW_CHOOSE_ACCOUNT⟩
  else if !env.dbConn then
    ⟨["خطا در اتصال به پایگاه داده."], [], [], ud, .state MAIN_MENU⟩
  else
    match env.accountRow with
    | none =>
      HRes.withMsgs ["خطا: حساب یافت نشد."] (view_choose_account env account_key ud)
    | some row =>
      let person_name := pyStr (dictGetD ud "selected_person_name" (pstr "N/A"))
      let person_name_safe := htmlEscape person_name
      let bank_safe := htmlEscape (match row.bank_name with
        | some b => if b ≠ "" then b else "N/A"
        | none => "N/A")
      let msg_lines := ["👤 اطلاعات حساب (" ++ person_name_safe ++ ")", "🏦 " ++ bank_safe]
        ++ (match mono row.account_number with | some m => ["🔢 " ++ m] | none => [])
        ++ (match mono row.card_number with | some m => ["💳 " ++ m] | none => [])
        ++ (match mono row.shaba_number with | some m => ["🌐 " ++ m] | none => [])
      let message_html := String.intercalate "\n" msg_lines
      let photoAttempt : List String × List String :=
        match row.card_photo_id with
        | some pid =>
          if pid ≠ "" then
            ([pid], if env.sendOk then [] else ["⚠️ تصویر کارت قابل بارگذاری نبود."])
          else ([], [])
        | none => ([], [])
      ⟨message_html :: photoAttempt.2, photoAttempt.1, [], ud, .state VIEW_ACCOUNT_DETAILS⟩

def view_back_to_accounts (env : Env) (ud : UserData) : HRes :=
  let person_name := pyStr (dictGetD ud "selected_person_name" (pstr "شخص"))
  let pid := dictGetD ud "selected_person_id" pnone
  if !pyTruthy pid then view_choose_person env ud 0
  else
    let fetched := get_accounts_for_person_from_db env ud
    let ud := fetched.1
    let buttons := match dictGetD ud "accounts_list_dict" (pdict []) with
      | pdict d => dictKeys d
      | _ => []
    if buttons.isEmpty then
      HRes.withMsgs ["هیچ حسابی برای '" ++ person_name ++ "' ثبت نشده."]
        (view_choose_person env ud 0)
    else
      ⟨["حساب‌های '" ++ person_name ++ "'. کدام حساب؟"], [], [], ud, .state VIEW_CHOOSE_ACCOUNT⟩

-- --- Edit Menu ---

/-- `edit_menu`: note that it clears `user_data` before returning. -/
def edit_menu (env : Env) (ud : UserData) : HRes :=
  if !env.isAdminUser then
    ⟨["🚫 این بخش فقط برای ادمین است."], [], [], ud, .state MAIN_MENU⟩
  else
    ⟨["منوی ویرایش:"], [], [], [], .state EDIT_MENU⟩

-- --- Add Flow ---

def add_choose_item_type (_env : Env) (ud : UserData) : HRes :=
  ⟨["چه نوع اطلاعاتی می‌خواهید اضافه کنید؟"], [], [], ud, .state ADD_CHOOSE_ITEM_TYPE⟩

/-- `add_prompt_account_name`: resets the account draft and (in this
variant) returns `ADD_ACCOUNT_BANK`. -/
def add_prompt_account_name (_env : Env) (ud : UserData) : HRes :=
  ⟨["یک نام برای این حساب انتخاب کنید (مثال: حساب حقوق، حساب شخصی)."], [], [],
    dictSet ud "new_account" (pdict []), .state ADD_ACCOUNT_BANK⟩

/-- `add_get_account_name` (defined in the source but never registered in
this variant's handler table). -/
def add_get_account_name (_env : Env) (text : String) (ud : UserData) : HRes :=
  if text = "" || pyStrip text = "" then
    ⟨["لطفاً یک نام معتبر وارد کنید."], [], [], ud, .state ADD_ACCOUNT_NAME⟩
  else
    match dictFind? ud "new_account" with
    | some (pdict na) =>
      ⟨["نام بانک را وارد کنید:"], [], [],
        dictSet ud "new_account" (pdict (dictSet na "account_name" (pstr (pyStrip text)))),
        .state ADD_ACCOUNT_BANK⟩
    | _ => crashRes ud

/-- `add_choose_person_type` (the second definition, which shadows the
first). -/
def add_choose_person_type (_env : Env) (ud : UserData) : HRes :=
  ⟨["برای چه کسی حساب اضافه می‌کنید؟"], [], [], ud, .state ADD_CHOOSE_PERSON_TYPE⟩

def add_prompt_new_person_name (_env : Env) (ud : UserData) : HRes :=
  ⟨["نام کامل شخص جدید را وارد کنید:"], [], [], ud, .state ADD_NEW_PERSON_NAME⟩

def add_save_new_person_and_prompt_item_type (env : Env) (text : String)
    (ud : UserData) : HRes :=
  let person_name := pyStrip text
  if person_name = "" then
    ⟨["نام نمی‌تواند خالی باشد."], [], [], ud, .state ADD_NEW_PERSON_NAME⟩
  else if !env.dbConn then edit_menu env ud
  else
    match env.insertPersonRes with
    | .dup =>
      ⟨["❌ شخصی با این نام وجود دارد."], [], [], ud, .state ADD_NEW_PERSON_NAME⟩
    | .err =>
      HRes.withMsgs ["❌ خطایی در افزودن شخص رخ داد."] (edit_menu env ud)
    | .ok person_id =>
      let ud := dictSet ud "new_account" (pdict [])
      let ud := dictSet ud "selected_person_id" (pint person_id)
      let ud := dictSet ud "new_account_person_id" (pint person_id)
      ⟨["✅ شخص '" ++ person_name ++ "' اضافه شد.", "چه نوع اطلاعاتی ثبت می‌کنید؟"],
        [], [], ud, .state ADD_CHOOSE_ITEM_TYPE⟩

def add_choose_existing_person (env : Env) (ud : UserData) : HRes :=
  let fetched := get_persons_from_db env ud
  let emptyish := match fetched.2.2 with
    | Sum.inl _ => true
    | Sum.inr l => l.isEmpty
  if emptyish then
    HRes.withMsgs (fetched.1 ++ ["هیچ شخصی نیست. ابتدا 'شخص جدید' اضافه کنید."])
      (add_choose_person_type env fetched.2.1)
  else
    ⟨fetched.1 ++ ["برای کدام شخص حساب اضافه می‌کنید؟"], [], [], fetched.2.1,
      .state ADD_CHOOSE_EXISTING_PERSON⟩

def add_set_existing_person_and_prompt_item_type (env : Env) (text : String)
    (ud : UserData) : HRes :=
  let _ := env
  let pid := match dictGetD ud "persons_list_dict" (pdict []) with
    | pdict d => dictGetD d text pnone
    | _ => pnone
  if !pyTruthy pid then ⟨[], [], [], ud, .state ADD_CHOOSE_EXISTING_PERSON⟩
  else
    let ud := dictSet ud "selected_person_id" pid
    let ud := dictSet ud "new_account_person_id" pid
    let ud := dictSet ud "new_account" (pdict [])
    ⟨["چه نوع اطلاعاتی ثبت می‌کنید؟"], [], [], ud, .state ADD_CHOOSE_ITEM_TYPE⟩

-- --- Document Add Flow ---

def add_prompt_doc_name (_env : Env) (ud : UserData) : HRes :=
  ⟨["نام مدرک را وارد کنید (مثلا: شناسنامه، پاسپورت):"], [], [],
    dictSet ud "new_doc" (pdict []), .state ADD_DOC_NAME⟩

def add_get_doc_name (_env : Env) (text : String) (ud : UserData) : HRes :=
  match dictFind? ud "new_doc" with
  | some (pdict nd) =>
    ⟨["متن مربوط به مدرک را وارد کنید:"], [], [],
      dictSet ud "new_doc" (pdict (dictSet nd "name" (pstr text))), .state ADD_DOC_TEXT⟩
  | _ => crashRes ud

def add_get_doc_text (_env : Env) (text : String) (ud : UserData) : HRes :=
  let doc_text := if text = SKIP_BUTTON then pnone else pstr text
  match dictFind? ud "new_doc" with
  | some (pdict nd) =>
    let shown := if pyTruthy doc_text then pyStr doc_text else "خالی"
    ⟨["متن ثبت شود؟\n---\n" ++ shown ++ "\n---"], [], [],
      dictSet ud "new_doc" (pdict (dictSet nd "text" doc_text)), .state ADD_DOC_FILES⟩
  | _ => crashRes ud

def add_prompt_doc_files (_env : Env) (ud : UserData) : HRes :=
  match dictFind? ud "new_doc" with
  | some (pdict nd) =>
    ⟨["عکس‌ها و فایل‌های مدرک را ارسال کنید. پس از اتمام، دکمه 'اتمام ارسال' را بزنید."],
      [], [], dictSet ud "new_doc" (pdict (dictSet nd "doc_files" (plist []))),
      .state ADD_DOC_FILES⟩
  | _ => crashRes ud

/-- `add_get_doc_files`: note the source bug — `file_id` is initialised
only inside the `'doc_files' not in user_data` branch, so a non-media
update with the key already present would raise `NameError` (`crash`);
the registered filter (`PHOTO | Document.ALL`) makes that unreachable. -/
def add_get_doc_files (_env : Env) (ev : Event) (ud : UserData) : HRes :=
  let hadKey := dictMem ud "doc_files"
  let ud := if hadKey then ud else dictSet ud "doc_files" (plist [])
  let fidOpt : Option String := match ev with
    | .photo f => some f
    | .docFile f => some f
    | .text _ => none
  match fidOpt with
  | some f =>
    match dictFind? ud "doc_files" with
    | some (plist fs) =>
      let fs' := fs ++ [pstr f]
      ⟨["✅ فایل دریافت شد. تاکنون " ++ toString fs'.length
          ++ " فایل ارسال کرده‌اید.\nمی‌توانید فایل‌های بیشتری بفرستید یا دکمه 'اتمام' را بزنید."],
        [], [], dictSet ud "doc_files" (plist fs'), .state ADD_DOC_FILES⟩
    | _ => crashRes ud
  | none =>
    if hadKey then crashRes ud
    else ⟨["لطفاً یک عکس یا فایل معتبر ارسال کنید."], [], [], ud, .state ADD_DOC_FILES⟩

def add_confirm_doc_save (_env : Env) (ud : UserData) : HRes :=
  let ud := if dictMem ud "new_doc" then ud else dictSet ud "new_doc" (pdict [])
  match dictFind? ud "new_doc" with
  | some (pdict nd) =>
    let nd :=
      if dictMem ud "doc_files" then dictSet nd "files" (dictGetD ud "doc_files" pnone)
      else nd
    let ud := dictSet ud "new_doc" (pdict nd)
    let filesLen := match dictFind? nd "files" with
      | some (plist l) => l.length
      | _ => 0
    let nameShown := match dictFind? nd "name" with
      | some v => pyStr v
      | none => "N/A"
    let textShown := match dictFind? nd "text" with
      | some v => pyStr v
      | none => "ندارد"
    ⟨["آیا این مدرک ثبت شود؟\n\n📄 نام: " ++ nameShown ++ "\n📝 متن: " ++ textShown
        ++ "\n📎 تعداد فایل: " ++ toString filesLen], [], [], ud, .state ADD_DOC_SAVE⟩
  | _ => crashRes ud

def add_save_document (env : Env) (ud : UserData) : HRes :=
  let new_doc := dictGetD ud "new_doc" (pdict [])
  let person_id := dictGetD ud "selected_person_id" pnone
  let nameTruthy := match new_doc with
    | pdict nd => pyTruthy (dictGetD nd "name" pnone)
    | _ => false
  if !pyTruthy person_id || !pyTruthy new_doc || !nameTruthy then
    let ud := dictPop (dictPop (dictPop ud "new_doc") "doc_files") "selected_person_id"
    HRes.withMsgs
      ["خطای داخلی: اطلاعات مدرک یا شخص کامل نیست. لطفاً دوباره از منوی اصلی شروع کنید."]
      (main_menu env ud)
  else if !env.dbConn then
    HRes.withMsgs ["اتصال به دیتابیس برقرار نیست. لطفاً بعداً تلاش کنید."] (edit_menu env ud)
  else if !env.dbWriteOk then
    HRes.withMsgs ["❌ خطایی در ذخیره مدرک رخ داد."] (edit_menu env ud)
  else
    let ud := dictPop (dictPop (dictPop ud "new_doc") "selected_person_id") "doc_files"
    HRes.withMsgs ["✅ مدرک جدید با موفقیت ثبت شد."] (main_menu env ud)

-- --- Account field steps ---

def add_account_get_bank (_env : Env) (text : String) (ud : UserData) : HRes :=
  let v := if text = SKIP_BUTTON then pnone else pstr text
  match dictFind? ud "new_account" with
  | some (pdict na) =>
    ⟨["۲/۵ - شماره حساب:"], [], [],
      dictSet ud "new_account" (pdict (dictSet na "bank_name" v)), .state ADD_ACCOUNT_NUMBER⟩
  | none =>
    -- `setdefault('new_account', {})` creates the inner dict
    ⟨["۲/۵ - شماره حساب:"], [], [],
      dictSet ud "new_account" (pdict [("bank_name", v)]), .state ADD_ACCOUNT_NUMBER⟩
  | some _ => crashRes ud

def add_account_get_number (_env : Env) (text : String) (ud : UserData) : HRes :=
  let v := if text = SKIP_BUTTON then pnone else pstr text
  match dictFind? ud "new_account" with
  | some (pdict na) =>
    ⟨["۳/۵ - شماره کارت:"], [], [],
      dictSet ud "new_account" (pdict (dictSet na "account_number" v)), .state ADD_ACCOUNT_CARD⟩
  | _ => crashRes ud

/-- `re.fullmatch(r"(4|5|6)\d{15}", s)`: the first character is literally
`4`, `5` or `6`, followed by fifteen decimal digits (`\d`). -/
def re_fullmatch_card (s : String) : Bool :=
  match s.data with
  | c :: rest => (c = '4' || c = '5' || c = '6') && rest.length = 15 && rest.all pyIsDecimalDigit
  | [] => false

/-- `re.fullmatch(r"\d{24}", s)`: exactly 24 decimal digits. -/
def re_fullmatch_shaba (s : String) : Bool :=
  s.data.length = 24 && s.data.all pyIsDecimalDigit

def add_account_get_card (_env : Env) (text : String) (ud : UserData) : HRes :=
  let card_number := if text = SKIP_BUTTON then pnone else pstr (pyStrip text)
  if pyTruthy card_number && !re_fullmatch_card (pyStr card_number) then
    ⟨["⚠️ شماره کارت معتبر نیست. شماره کارت باید ۱۶ رقم و با 4 یا 5 یا 6 شروع شود."],
      [], [], ud, .state ADD_ACCOUNT_CARD⟩
  else
    match dictFind? ud "new_account" with
    | some (pdict na) =>
      ⟨["۴/۵ - شماره شبا (بدون IR):"], [], [],
        dictSet ud "new_account" (pdict (dictSet na "card_number" card_number)),
        .state ADD_ACCOUNT_SHABA⟩
    | _ => crashRes ud

def add_account_get_shaba (_env : Env) (text : String) (ud : UserData) : HRes :=
  let shaba_number := if text = SKIP_BUTTON then pnone else pstr (pyStrip text)
  if pyTruthy shaba_number && !re_fullmatch_shaba (pyStr shaba_number) then
    ⟨["⚠️ شماره شبا معتبر نیست. باید ۲۴ رقم و فقط عدد باشد (بدون IR)."],
      [], [], ud, .state ADD_ACCOUNT_SHABA⟩
  else
    match dictFind? ud "new_account" with
    | some (pdict na) =>
      ⟨["۵/۵ - تصویر کارت:"], [], [],
        dictSet ud "new_account" (pdict (dictSet na "shaba_number" shaba_number)),
        .state ADD_ACCOUNT_PHOTO⟩
    | _ => crashRes ud

def add_account_get_photo_and_save (env : Env) (ev : Event) (ud : UserData) : HRes :=
  -- `new_account = user_data.get('new_account', {})`: when the key is
  -- absent a fresh dict (not stored back into user_data) is used
  let naLinked := dictMem ud "new_account"
  let pidA := dictGetD ud "selected_person_id" pnone
  let pidV := if pyTruthy pidA then pidA else dictGetD ud "new_account_person_id" pnone
  match dictGetD ud "new_account" (pdict []) with
  | pdict na =>
    let naUpd : Option (List (String × PyVal)) := match ev with
      | .photo f => some (dictSet na "card_photo_id" (pstr f))
      | .text t => if t = SKIP_BUTTON then some (dictSet na "card_photo_id" pnone) else none
      | .docFile _ => none
    match naUpd with
    | none => ⟨["لطفاً عکس بفرستید یا رد شوید."], [], [], ud, .state ADD_ACCOUNT_PHOTO⟩
    | some na' =>
      let ud := if naLinked then dictSet ud "new_account" (pdict na') else ud
      if !pyTruthy pidV || !pyTruthy (dictGetD na' "account_name" pnone) then
        HRes.withMsgs
          ["❌ یک خطای داخلی رخ داد (اطلاعات شخص یا نام حساب یافت نشد). لطفاً دوباره تلاش کنید."]
          (edit_menu env (dictPop ud "new_account"))
      else if !env.dbConn then
        HRes.withMsgs ["اتصال به دیتابیس برقرار نیست."] (edit_menu env ud)
      else
        let m := if env.dbWriteOk then "✅ حساب جدید با موفقیت ثبت شد."
          else "❌ خطایی در ذخیره حساب رخ داد."
        HRes.withMsgs [m]
          (edit_menu env (dictPop (dictPop ud "new_account") "selected_person_id"))
  | _ => crashRes ud

-- --- Delete Flow ---

def delete_choose_type (_env : Env) (ud : UserData) : HRes :=
  ⟨["قصد حذف چه چیزی را دارید؟\n\n⚠️ *توجه:* با حذف شخص، تمام حساب‌هایش نیز حذف می‌شود\\."],
    [], [], ud, .state DELETE_CHOOSE_TYPE⟩

def delete_choose_person (env : Env) (ud : UserData) : HRes :=
  let fetched := get_persons_from_db env ud
  let emptyish := match fetched.2.2 with
    | Sum.inl _ => true
    | Sum.inr l => l.isEmpty
  if emptyish then
    HRes.withMsgs (fetched.1 ++ ["هیچ شخصی برای حذف نیست."]) (edit_menu env fetched.2.1)
  else
    ⟨fetched.1 ++ ["کدام شخص را حذف می‌کنید؟"], [], [], fetched.2.1,
      .state DELETE_CHOOSE_PERSON⟩

def delete_confirm_person (_env : Env) (text : String) (ud : UserData) : HRes :=
  let pid := match dictGetD ud "persons_list_dict" (pdict []) with
    | pdict d => dictGetD d text pnone
    | _ => pnone
  if !pyTruthy pid then ⟨[], [], [], ud, .state DELETE_CHOOSE_PERSON⟩
  else
    ⟨["‼️ *اخطار نهایی*\nآیا از حذف '" ++ text ++ "' و تمام حساب‌هایش مطمئنید؟"], [], [],
      dictSet ud "person_to_delete" (pdict [("id", pid), ("name", pstr text)]),
      .state DELETE_CONFIRM_PERSON⟩

def delete_execute_person_deletion (env : Env) (ud : UserData) : HRes :=
  let ptd := dictGetD ud "person_to_delete" pnone
  if !pyTruthy ptd then edit_menu env ud
  else if !env.dbConn then edit_menu env ud
  else
    match ptd with
    | pdict d =>
      match dictFind? d "id", dictFind? d "name" with
      | some _, some nm =>
        if env.dbWriteOk then
          HRes.withMsgs ["✅ شخص '" ++ pyStr nm ++ "' حذف شد."]
            (edit_menu env (dictPop ud "person_to_delete"))
        else
          HRes.withMsgs ["❌ خطایی در حذف رخ داد."]
            (edit_menu env (dictPop ud "person_to_delete"))
      | _, _ => crashRes ud
    | _ => crashRes ud

def delete_cancel (env : Env) (ud : UserData) : HRes :=
  HRes.withMsgs ["عملیات حذف لغو شد."]
    (edit_menu env (dictPop (dictPop ud "person_to_delete") "account_to_delete"))

def delete_choose_account_for_person (env : Env) (ud : UserData) : HRes :=
  let fetched := get_persons_from_db env ud
  let emptyish := match fetched.2.2 with
    | Sum.inl _ => true
    | Sum.inr l => l.isEmpty
  if emptyish then
    HRes.withMsgs (fetched.1 ++ ["هیچ شخصی نیست."]) (edit_menu env fetched.2.1)
  else
    ⟨fetched.1 ++ ["حساب مورد نظر برای کدام شخص است؟"], [], [], fetched.2.1,
      .state DELETE_CHOOSE_ACCOUNT_FOR_PERSON⟩

def delete_choose_account (env : Env) (text : String) (ud : UserData) : HRes :=
  let pid := match dictGetD ud "persons_list_dict" (pdict []) with
    | pdict d => dictGetD d text pnone
    | _ => pnone
  if !pyTruthy pid then ⟨[], [], [], ud, .state DELETE_CHOOSE_ACCOUNT_FOR_PERSON⟩
  else
    let fetched := get_accounts_for_person_from_db env ud
    let ud := fetched.1
    let emptyish := match fetched.2 with
      | none => true
      | some l => l.isEmpty
    if emptyish then
      HRes.withMsgs ["هیچ حسابی برای '" ++ text ++ "' نیست."]
        (delete_choose_account_for_person env ud)
    else
      ⟨["کدام حساب '" ++ text ++ "' را حذف می‌کنید؟"], [], [], ud,
        .state DELETE_CHOOSE_ACCOUNT⟩

def delete_confirm_account (_env : Env) (text : String) (ud : UserData) : HRes :=
  let aid := match dictGetD ud "accounts_list_dict" (pdict []) with
    | pdict d => dictGetD d text pnone
    | _ => pnone
  if !pyTruthy aid then ⟨[], [], [], ud, .state DELETE_CHOOSE_ACCOUNT⟩
  else
    ⟨["‼️ *اخطار نهایی*\nآیا از حذف حساب '" ++ text ++ "' مطمئنید؟"], [], [],
      dictSet ud "account_to_delete" (pdict [("id", aid), ("key", pstr text)]),
      .state DELETE_CONFIRM_ACCOUNT⟩

def delete_execute_account_deletion (env : Env) (ud : UserData) : HRes :=
  let atd := dictGetD ud "account_to_delete" pnone
  if !pyTruthy atd then edit_menu env ud
  else if !env.dbConn then edit_menu env ud
  else
    match atd with
    | pdict d =>
      match dictFind? d "id", dictFind? d "key" with
      | some _, some k =>
        if env.dbWriteOk then
          HRes.withMsgs ["✅ حساب '" ++ pyStr k ++ "' حذف شد."]
            (edit_menu env (dictPop ud "account_to_delete"))
        else
          HRes.withMsgs ["❌ خطایی در حذف رخ داد."]
            (edit_menu env (dictPop ud "account_to_delete"))
      | _, _ => crashRes ud
    | _ => crashRes ud

-- --- Change/Update Flow ---

def change_choose_person (env : Env) (ud : UserData) : HRes :=
  let fetched := get_persons_from_db env ud
  let emptyish := match fetched.2.2 with
    | Sum.inl _ => true
    | Sum.inr l => l.isEmpty
  if emptyish then
    HRes.withMsgs (fetched.1 ++ ["هیچ شخصی برای ویرایش وجود ندارد."])
      (edit_menu env fetched.2.1)
  else
    ⟨fetched.1 ++ ["اطلاعات کدام شخص را می‌خواهید تغییر دهید؟"], [], [], fetched.2.1,
      .state CHANGE_CHOOSE_PERSON⟩

def change_choose_target (_env : Env) (text : String) (ud : UserData) : HRes :=
  let pid := match dictGetD ud "persons_list_dict" (pdict []) with
    | pdict d => dictGetD d text pnone
    | _ => pnone
  if !pyTruthy pid then
    ⟨["❌ انتخاب نامعتبر. از دکمه‌ها استفاده کنید."], [], [], ud, .state CHANGE_CHOOSE_PERSON⟩
  else
    ⟨["چه تغییری برای '" ++ text ++ "' ایجاد می‌کنید؟"], [], [],
      dictSet ud "change_person" (pdict [("id", pid), ("name", pstr text)]),
      .state CHANGE_CHOOSE_TARGET⟩

/-- `change_update_person_name`: reads `person_new_name` / `person_id`,
keys no other handler ever writes; the generic exception text
`f"❌ خطا در تغییر نام: {e}"` is abbreviated by a fixed placeholder. -/
def change_update_person_name (env : Env) (ud : UserData) : HRes :=
  let new_name := dictGetD ud "person_new_name" pnone
  let person_id := dictGetD ud "person_id" pnone
  if !(pyTruthy new_name && pyTruthy person_id) then
    ⟨["⚠️ اطلاعات کافی برای ذخیره تغییرات موجود نیست."], [], [], ud, .state MAIN_MENU⟩
  else if !env.dbConn then
    ⟨["⚠️ خطا در اتصال به پایگاه داده."], [], [], ud, .state MAIN_MENU⟩
  else
    match env.updatePersonRes with
    | .ok _ => ⟨["✅ نام شخص با موفقیت تغییر یافت."], [], [], ud, .state MAIN_MENU⟩
    | _ => ⟨["❌ خطا در تغییر نام: <exception>"], [], [], ud, .state MAIN_MENU⟩

def change_prompt_person_name (_env : Env) (ud : UserData) : HRes :=
  let person_name := match dictGetD ud "change_person" (pdict []) with
    | pdict d => pyStr (dictGetD d "name" (pstr "این شخص"))
    | _ => "این شخص"
  ⟨["نام جدید را برای '" ++ person_name ++ "' وارد کنید:"], [], [], ud,
    .state CHANGE_PROMPT_PERSON_NAME⟩

def change_save_person_name (env : Env) (text : String) (ud : UserData) : HRes :=
  let new_name := pyStrip text
  let person_info := dictGetD ud "change_person" pnone
  if new_name = "" || !pyTruthy person_info then
    ⟨["نام نمی‌تواند خالی باشد."], [], [], ud, .state CHANGE_PROMPT_PERSON_NAME⟩
  else if !env.dbConn then edit_menu env ud
  else
    match person_info with
    | pdict d =>
      match dictFind? d "id" with
      | some _ =>
        match env.updatePersonRes with
        | .dup =>
          HRes.withMsgs ["❌ شخصی با این نام از قبل وجود دارد."] (edit_menu env ud)
        | .err =>
          HRes.withMsgs ["❌ خطایی در تغییر نام رخ داد."] (edit_menu env ud)
        | .ok _ =>
          HRes.withMsgs ["✅ نام شخص با موفقیت به '" ++ new_name ++ "' تغییر یافت."]
            (edit_menu env ud)
      | none => crashRes ud
    | _ => crashRes ud

def change_choose_account (env : Env) (text : String) (ud : UserData) : HRes :=
  let fetched := get_accounts_for_person_from_db env ud
  let ud := fetched.1
  let emptyish := match fetched.2 with
    | none => true
    | some l => l.isEmpty
  if emptyish then
    HRes.withMsgs ["هیچ حسابی برای ویرایش وجود ندارد."] (change_choose_target env text ud)
  else
    ⟨["کدام حساب را ویرایش می‌کنید؟"], [], [], ud, .state CHANGE_CHOOSE_ACCOUNT⟩

def change_choose_field (_env : Env) (text : String) (ud : UserData) : HRes :=
  let aid := match dictGetD ud "accounts_list_dict" (pdict []) with
    | pdict d => dictGetD d text pnone
    | _ => pnone
  if !pyTruthy aid then
    ⟨["❌ انتخاب نامعتبر. از دکمه‌ها استفاده کنید."], [], [], ud, .state CHANGE_CHOOSE_ACCOUNT⟩
  else
    ⟨["کدام فیلد را تغییر می‌دهید؟"], [], [], dictSet ud "change_account_id" aid,
      .state CHANGE_CHOOSE_FIELD⟩

/-- `change_update_field_value`: reads `field_value` / `field_column` /
`account_id`, keys no handler ever writes. -/
def change_update_field_value (env : Env) (ud : UserData) : HRes :=
  let field_column := dictGetD ud "field_column" pnone
  let account_id := dictGetD ud "account_id" pnone
  if !(pyTruthy field_column && pyTruthy account_id) then
    ⟨["⚠️ اطلاعات کافی برای ذخیره تغییرات موجود نیست."], [], [], ud, .state MAIN_MENU⟩
  else if !env.dbConn then
    ⟨["⚠️ خطا در اتصال به پایگاه داده."], [], [], ud, .state MAIN_MENU⟩
  else if env.dbWriteOk then
    ⟨["✅ تغییرات با موفقیت ذخیره شد."], [], [], ud, .state MAIN_MENU⟩
  else
    ⟨["❌ خطا در ذخیره تغییرات: <exception>"], [], [], ud, .state MAIN_MENU⟩

def change_prompt_field_value (_env : Env) (text : String) (ud : UserData) : HRes :=
  if (FIELD_TO_COLUMN_MAP.find? (fun p => p.1 = text)).isNone then
    ⟨["❌ انتخاب نامعتبر. از دکمه‌ها استفاده کنید."], [], [], ud, .state CHANGE_CHOOSE_FIELD⟩
  else
    let prompt :=
      if text ≠ "عکس کارت 🖼️" then "مقدار جدید را برای '" ++ text ++ "' وارد کنید:"
      else "مقدار جدید را برای '" ++ text ++ "' وارد کنید (یا عکس بفرستید):"
    ⟨[prompt], [], [], dictSet ud "change_field" (pstr text), .state CHANGE_PROMPT_FIELD_VALUE⟩

def change_save_field_value (env : Env) (ev : Event) (ud : UserData) : HRes :=
  let field_name := dictGetD ud "change_field" pnone
  let account_id := dictGetD ud "change_account_id" pnone
  let column_name : Option String := match field_name with
    | pstr f => (FIELD_TO_COLUMN_MAP.find? (fun p => p.1 = f)).map (fun p => p.2)
    | _ => none
  if !pyTruthy field_name || !pyTruthy account_id || column_name.isNone then
    HRes.withMsgs ["خطای داخلی. لطفاً دوباره تلاش کنید."] (edit_menu env ud)
  else
    let finish : PyVal → HRes := fun _new_value =>
      if !env.dbConn then edit_menu env ud
      else
        let m := if env.dbWriteOk then
            "✅ فیلد '" ++ pyStr field_name ++ "' با موفقیت به‌روزرسانی شد."
          else "❌ خطایی در به‌روزرسانی فیلد رخ داد: <psycopg2.Error>"
        HRes.withMsgs [m]
          (edit_menu env
            (dictPop (dictPop (dictPop ud "change_person") "change_account_id") "change_field"))
    if evText ev = SKIP_BUTTON then finish pnone
    else if column_name.getD "" = "card_photo_id" then
      match ev with
      | .photo f => finish (pstr f)
      | _ =>
        ⟨["لطفاً یک عکس ارسال کنید، رد شوید یا بازگردید."], [], [], ud,
          .state CHANGE_PROMPT_FIELD_VALUE⟩
    else
      match ev with
      | .text t =>
        if t ≠ "" then finish (pstr t)
        else
          ⟨["لطفاً یک مقدار متنی وارد کنید، رد شوید یا بازگردید."], [], [], ud,
            .state CHANGE_PROMPT_FIELD_VALUE⟩
      | _ =>
        ⟨["لطفاً یک مقدار متنی وارد کنید، رد شوید یا بازگردید."], [], [], ud,
          .state CHANGE_PROMPT_FIELD_VALUE⟩

-- --- Dispatch (the ConversationHandler of main(), src/main.py 1485-1709) ---

/-- One tag per handler function registered in the `states` table or the
fallbacks. -/
inductive HTag where
  | start | cancel | main_menu
  | admin_menu | admin_view_users | admin_prompt_add_user | admin_prompt_remove_user
  | admin_remove_user | admin_add_user_confirm | admin_add_user_execute
  | view_choose_person | view_person_paginator | view_choose_account
  | view_choose_document | view_display_document_details | view_display_account_details
  | view_back_to_accounts
  | edit_menu
  | add_choose_person_type | add_prompt_new_person_name
  | add_save_new_person_and_prompt_item_type
  | add_choose_existing_person | add_set_existing_person_and_prompt_item_type
  | add_choose_item_type | add_prompt_account_name
  | add_prompt_doc_name | add_get_doc_name | add_get_doc_text | add_prompt_doc_files
  | add_get_doc_files | add_confirm_doc_save | add_save_document
  | add_account_get_bank | add_account_get_number | add_account_get_card
  | add_account_get_shaba | add_account_get_photo_and_save
  | delete_choose_type | delete_choose_person | delete_confirm_person
  | delete_execute_person_deletion | delete_cancel
  | delete_choose_account_for_person | delete_choose_account | delete_confirm_account
  | delete_execute_account_deletion
  | change_choose_person | change_choose_target | change_prompt_person_name
  | change_save_person_name | change_choose_account | change_choose_field
  | change_prompt_field_value | change_save_field_value
  | change_update_field_value | change_update_person_name
  deriving DecidableEq, Repr

/-- One `MessageHandler(filter, handler)` entry. -/
structure Rule where
  accepts : Event → Bool
  tag : HTag

/-- `filters.Regex(f"^{lit}$")`: every literal used contains no regex
metacharacter, so this is an exact match on the text. -/
def rxRule (lit : String) (t : HTag) : Rule :=
  ⟨fun ev => match ev with | .text s => s = lit | _ => false, t⟩

/-- `filters.TEXT & ~filters.COMMAND`: any nonempty text not starting
with `/`. -/
def textRule (t : HTag) : Rule :=
  ⟨fun ev => match ev with | .text s => s ≠ "" && !isCommandText s | _ => false, t⟩

/-- `filters.Text([...])`: exact membership. -/
def textListRule (lits : List String) (t : HTag) : Rule :=
  ⟨fun ev => match ev with | .text s => lits.contains s | _ => false, t⟩

/-- `filters.PHOTO | filters.Document.ALL`. -/
def photoOrDocRule (t : HTag) : Rule :=
  ⟨fun ev => match ev with | .photo _ => true | .docFile _ => true | _ => false, t⟩

/-- `filters.PHOTO | filters.TEXT` (plain TEXT: commands included). -/
def photoOrTextRule (t : HTag) : Rule :=
  ⟨fun ev => match ev with | .photo _ => true | .text s => s ≠ "" | _ => false, t⟩

/-- `filters.TEXT | filters.PHOTO`. -/
def textOrPhotoRule (t : HTag) : Rule :=
  ⟨fun ev => match ev with | .photo _ => true | .text s => s ≠ "" | _ => false, t⟩

def runHandler (t : HTag) (env : Env) (ev : Event) (ud : UserData) : HRes :=
  match t with
  | .start => start env ud
  | .cancel => cancel env ud
  | .main_menu => main_menu env ud
  | .admin_menu => admin_menu env ud
  | .admin_view_users => admin_view_users env ud
  | .admin_prompt_add_user => admin_prompt_add_user env ud
  | .admin_prompt_remove_user => admin_prompt_remove_user env ud
  | .admin_remove_user => admin_remove_user env (evText ev) ud
  | .admin_add_user_confirm => admin_add_user_confirm env (evText ev) ud
  | .admin_add_user_execute => admin_add_user_execute env ud
  | .view_choose_person => view_choose_person env ud 0
  | .view_person_paginator => view_person_paginator env (evText ev) ud
  | .view_choose_account => view_choose_account env (evText ev) ud
  | .view_choose_document => view_choose_document env (evText ev) ud
  | .view_display_document_details => view_display_document_details env (evText ev) ud
  | .view_display_account_details => view_display_account_details env (evText ev) ud
  | .view_back_to_accounts => view_back_to_accounts env ud
  | .edit_menu => edit_menu env ud
  | .add_choose_person_type => add_choose_person_type env ud
  | .add_prompt_new_person_name => add_prompt_new_person_name env ud
  | .add_save_new_person_and_prompt_item_type =>
    add_save_new_person_and_prompt_item_type env (evText ev) ud
  | .add_choose_existing_person => add_choose_existing_person env ud
  | .add_set_existing_person_and_prompt_item_type =>
    add_set_existing_person_and_prompt_item_type env (evText ev) ud
  | .add_choose_item_type => add_choose_item_type env ud
  | .add_prompt_account_name => add_prompt_account_name env ud
  | .add_prompt_doc_name => add_prompt_doc_name env ud
  | .add_get_doc_name => add_get_doc_name env (evText ev) ud
  | .add_get_doc_text => add_get_doc_text env (evText ev) ud
  | .add_prompt_doc_files => add_prompt_doc_files env ud
  | .add_get_doc_files => add_get_doc_files env ev ud
  | .add_confirm_doc_save => add_confirm_doc_save env ud
  | .add_save_document => add_save_document env ud
  | .add_account_get_bank => add_account_get_bank env (evText ev) ud
  | .add_account_get_number => add_account_get_number env (evText ev) ud
  | .add_account_get_card => add_account_get_card env (evText ev) ud
  | .add_account_get_shaba => add_account_get_shaba env (evText ev) ud
  | .add_account_get_photo_and_save => add_account_get_photo_and_save env ev ud
  | .delete_choose_type => delete_choose_type env ud
  | .delete_choose_person => delete_choose_person env ud
  | .delete_confirm_person => delete_confirm_person env (evText ev) ud
  | .delete_execute_person_deletion => delete_execute_person_deletion env ud
  | .delete_cancel => delete_cancel env ud
  | .delete_choose_account_for_person => delete_choose_account_for_person env ud
  | .delete_choose_account => delete_choose_account env (evText ev) ud
  | .delete_confirm_account => delete_confirm_account env (evText ev) ud
  | .delete_execute_account_deletion => delete_execute_account_deletion env ud
  | .change_choose_person => change_choose_person env ud
  | .change_choose_target => change_choose_target env (evText ev) ud
  | .change_prompt_person_name => change_prompt_person_name env ud
  | .change_save_person_name => change_save_person_name env (evText ev) ud
  | .change_choose_account => change_choose_account env (evText ev) ud
  | .change_choose_field => change_choose_field env (evText ev) ud
  | .change_prompt_field_value => change_prompt_field_value env (evText ev) ud
  | .change_save_field_value => change_save_field_value env ev ud
  | .change_update_field_value => change_update_field_value env ud
  | .change_update_person_name => change_update_person_name env ud

/-- The per-state handler lists, in registration order (first match wins,
as in python-telegram-bot).  States absent from the `states` dict
(`VIEW_DISPLAY_DOCUMENT`) have no rules. -/
def stateRules : ConvState → List Rule
  | MAIN_MENU =>
    [rxRule "مشاهده اطلاعات 📄" .view_choose_person,
     rxRule "ویرایش ✏️" .edit_menu,
     rxRule "ادمین 🛠️" .admin_menu]
  | ADMIN_MENU =>
    [rxRule "مشاهده کاربران مجاز 👁️" .admin_view_users,
     rxRule "افزودن کاربر ➕" .admin_prompt_add_user,
     rxRule "حذف کاربر ➖" .admin_prompt_remove_user,
     rxRule HOME_BUTTON .main_menu]
  | ADMIN_ADD_USER_CONFIRM =>
    [rxRule BACK_BUTTON .admin_menu,
     rxRule HOME_BUTTON .main_menu,
     rxRule YES_BUTTON .admin_add_user_execute,
     rxRule NO_BUTTON .admin_menu,
     textRule .admin_add_user_confirm]
  | ADMIN_REMOVE_USER =>
    [textRule .admin_remove_user,
     rxRule BACK_BUTTON .admin_menu,
     rxRule HOME_BUTTON .main_menu]
  | VIEW_CHOOSE_PERSON =>
    [textListRule [NEXT_PAGE_BUTTON, PREV_PAGE_BUTTON] .view_person_paginator,
     textRule .view_choose_account]
  | VIEW_CHOOSE_ACCOUNT =>
    [textRule .view_display_account_details,
     rxRule BACK_BUTTON .view_choose_person,
     rxRule HOME_BUTTON .main_menu]
  | EDIT_MENU =>
    [rxRule "اضافه کردن ➕" .add_choose_person_type,
     rxRule "تغییر دادن 📝" .change_choose_person,
     rxRule DELETE_BUTTON .delete_choose_type,
     rxRule HOME_BUTTON .main_menu]
  | ADD_CHOOSE_PERSON_TYPE =>
    [rxRule BACK_BUTTON .edit_menu,
     rxRule HOME_BUTTON .main_menu,
     rxRule "شخص جدید 👤" .add_prompt_new_person_name,
     rxRule "شخص موجود 👥" .add_choose_existing_person]
  | ADD_NEW_PERSON_NAME =>
    [textRule .add_save_new_person_and_prompt_item_type,
     rxRule BACK_BUTTON .add_choose_person_type,
     rxRule HOME_BUTTON .main_menu]
  | ADD_CHOOSE_EXISTING_PERSON =>
    [rxRule BACK_BUTTON .add_choose_person_type,
     rxRule HOME_BUTTON .main_menu,
     textRule .add_set_existing_person_and_prompt_item_type]
  | ADD_ACCOUNT_NAME =>
    [textRule .add_prompt_account_name,
     rxRule BACK_BUTTON .add_choose_item_type]
  | ADD_ACCOUNT_BANK =>
    [textRule .add_account_get_bank,
     rxRule BACK_BUTTON .add_choose_person_type,
     rxRule HOME_BUTTON .main_menu]
  | ADD_ACCOUNT_NUMBER =>
    [textRule .add_account_get_number,
     rxRule BACK_BUTTON .add_choose_person_type,
     rxRule HOME_BUTTON .main_menu]
  | ADD_ACCOUNT_CARD =>
    [rxRule BACK_BUTTON .add_choose_person_type,
     rxRule HOME_BUTTON .main_menu,
     textRule .add_account_get_card]
  | ADD_ACCOUNT_SHABA =>
    [rxRule BACK_BUTTON .add_choose_person_type,
     rxRule HOME_BUTTON .main_menu,
     textRule .add_account_get_shaba]
  | ADD_ACCOUNT_PHOTO =>
    [rxRule BACK_BUTTON .add_choose_person_type,
     rxRule HOME_BUTTON .main_menu,
     photoOrTextRule .add_account_get_photo_and_save]
  | ADD_CHOOSE_ITEM_TYPE =>
    [rxRule "حساب بانکی 💳" .add_prompt_account_name,
     rxRule "مدرک 📄" .add_prompt_doc_name,
     rxRule BACK_BUTTON .add_choose_person_type,
     rxRule HOME_BUTTON .main_menu]
  | DELETE_CHOOSE_TYPE =>
    [rxRule BACK_BUTTON .edit_menu,
     rxRule HOME_BUTTON .main_menu,
     rxRule "حذف شخص 👤" .delete_choose_person,
     rxRule "حذف حساب 💳" .delete_choose_account_for_person]
  | DELETE_CHOOSE_PERSON =>
    [rxRule BACK_BUTTON .delete_choose_type,
     rxRule HOME_BUTTON .main_menu,
     textRule .delete_confirm_person]
  | DELETE_CONFIRM_PERSON =>
    [rxRule YES_BUTTON .delete_execute_person_deletion,
     rxRule NO_BUTTON .delete_cancel,
     rxRule HOME_BUTTON .main_menu]
  | DELETE_CHOOSE_ACCOUNT_FOR_PERSON =>
    [rxRule BACK_BUTTON .delete_choose_type,
     rxRule HOME_BUTTON .main_menu,
     textRule .delete_choose_account]
  | DELETE_CHOOSE_ACCOUNT =>
    [rxRule BACK_BUTTON .delete_choose_account_for_person,
     rxRule HOME_BUTTON .main_menu,
     textRule .delete_confirm_account]
  | DELETE_CONFIRM_ACCOUNT =>
    [rxRule YES_BUTTON .delete_execute_account_deletion,
     rxRule NO_BUTTON .delete_cancel,
     rxRule HOME_BUTTON .main_menu]
  | CHANGE_CHOOSE_PERSON =>
    [rxRule BACK_BUTTON .edit_menu,
     rxRule HOME_BUTTON .main_menu,
     textRule .change_choose_target]
  | CHANGE_CHOOSE_TARGET =>
    [rxRule BACK_BUTTON .change_choose_person,
     rxRule HOME_BUTTON .main_menu,
     rxRule "تغییر نام شخص 👤" .change_prompt_person_name,
     rxRule "ویرایش یک حساب 💳" .change_choose_account]
  | CHANGE_PROMPT_PERSON_NAME =>
    [rxRule BACK_BUTTON .change_choose_target,
     rxRule HOME_BUTTON .main_menu,
     textRule .change_save_person_name]
  | CHANGE_CHOOSE_ACCOUNT =>
    [rxRule BACK_BUTTON .change_choose_target,
     rxRule HOME_BUTTON .main_menu,
     textRule .change_choose_field]
  | CHANGE_CHOOSE_FIELD =>
    [rxRule BACK_BUTTON .change_choose_account,
     rxRule HOME_BUTTON .main_menu,
     textRule .change_prompt_field_value]
  | CHANGE_PROMPT_FIELD_VALUE =>
    [rxRule BACK_BUTTON .change_choose_field,
     rxRule HOME_BUTTON .main_menu,
     textOrPhotoRule .change_save_field_value]
  | ADD_DOC_NAME =>
    [textRule .add_get_doc_name,
     rxRule BACK_BUTTON .add_choose_person_type,
     rxRule HOME_BUTTON .main_menu]
  | ADD_DOC_TEXT =>
    [textRule .add_get_doc_text,
     rxRule YES_CONTINUE .add_prompt_doc_files,
     rxRule NO_EDIT .add_get_doc_text,
     rxRule SKIP_BUTTON .add_get_doc_text,
     rxRule BACK_BUTTON .add_get_doc_name,
     rxRule HOME_BUTTON .main_menu]
  | ADD_DOC_FILES =>
    [photoOrDocRule .add_get_doc_files,
     rxRule FINISH_SENDING_BUTTON .add_confirm_doc_save,
     rxRule BACK_BUTTON .add_get_doc_text,
     rxRule HOME_BUTTON .main_menu,
     rxRule YES_CONTINUE .add_prompt_doc_files,
     rxRule NO_EDIT .add_get_doc_text]
  | ADD_DOC_SAVE =>
    [rxRule YES_CONTINUE .add_save_document,
     rxRule NO_EDIT .add_prompt_doc_name,
     rxRule HOME_BUTTON .main_menu]
  | CHANGE_SAVE_FIELD_VALUE =>
    [rxRule YES_BUTTON .change_update_field_value,
     rxRule NO_BUTTON .change_prompt_field_value,
     rxRule BACK_BUTTON .change_choose_field,
     rxRule HOME_BUTTON .main_menu]
  | CHANGE_SAVE_PERSON_NAME =>
    [rxRule YES_BUTTON .change_update_person_name,
     rxRule NO_BUTTON .change_prompt_person_name,
     rxRule BACK_BUTTON .change_choose_target,
     rxRule HOME_BUTTON .main_menu]
  | VIEW_DISPLAY_ACCOUNT_DETAILS =>
    [rxRule DOCUMENTS_BUTTON .view_choose_document,
     textRule .view_display_account_details]
  | VIEW_CHOOSE_DOCUMENT =>
    [rxRule BACK_BUTTON .view_choose_account,
     textRule .view_display_document_details]
  | VIEW_ACCOUNT_DETAILS =>
    [textListRule [BACK_BUTTON] .view_back_to_accounts]
  | VIEW_DISPLAY_DOCUMENT => []

/-- The conversation fallbacks: `/start`, `/cancel`, the Home regex, and a
catch-everything `filters.ALL` routed to `start`. -/
def fallbackRules : List Rule :=
  [⟨fun ev => match ev with | .text s => s = "/start" | _ => false, .start⟩,
   ⟨fun ev => match ev with | .text s => s = "/cancel" | _ => false, .cancel⟩,
   rxRule HOME_BUTTON .main_menu,
   ⟨fun _ => true, .start⟩]

/-- The handler selected for an event in a state (`none` when the state's
rules all miss and dispatch falls through to the fallbacks). -/
def matchedTag (s : ConvState) (ev : Event) : Option HTag :=
  ((stateRules s).find? (fun r => r.accepts ev)).map (fun r => r.tag)

def fallbackTag (ev : Event) : HTag :=
  ((fallbackRules.find? (fun r => r.accepts ev)).map (fun r => r.tag)).getD .start

/-- Deliver one inbound event to the conversation in state `s`. -/
def dispatch (env : Env) (s : ConvState) (ev : Event) (ud : UserData) : HRes :=
  match matchedTag s ev with
  | some t => runHandler t env ev ud
  | none => runHandler (fallbackTag ev) env ev ud

-- --- Spec-side definitions (written from the spec's words, for the
-- pagination refinement claim) ---

/-- Spec 4.2: "Append a control row containing 'previous page' iff
`page > 0`, and 'next page' iff there exist labels beyond the current
slice; omit the row entirely if neither applies." -/
def specControlRows (total page items_per_page : Nat) : List (List String) :=
  if page > 0 || page * items_per_page + items_per_page < total then
    [(if page > 0 then [PREV_PAGE_BUTTON] else []) ++
     (if page * items_per_page + items_per_page < total then [NEXT_PAGE_BUTTON] else [])]
  else []

/-- Spec 4.2: "Append every row in `footer_rows`; if none of those rows
already contains the literal 'home' button, append a final row containing
only 'home'." -/
def specFooterRows (footer_buttons : Option (List (List String))) : List (List String) :=
  match footer_buttons with
  | some rows =>
    rows ++ (if rows.any (fun row => row.contains HOME_BUTTON) then [] else [[HOME_BUTTON]])
  | none => [[HOME_BUTTON]]

-- --- Classification of the states table (read off `stateRules`) ---

/-- The 28 states in which a Home press reaches `main_menu`: either a
`Regex(^HOME$)` rule fires before any rule matching the Home text, or no
state rule matches and the Home fallback applies. -/
def homeResetStates : List ConvState :=
  [MAIN_MENU, ADMIN_MENU, ADMIN_ADD_USER_CONFIRM, VIEW_ACCOUNT_DETAILS,
   VIEW_DISPLAY_DOCUMENT, EDIT_MENU, ADD_CHOOSE_PERSON_TYPE,
   ADD_CHOOSE_EXISTING_PERSON, ADD_CHOOSE_ITEM_TYPE, ADD_ACCOUNT_CARD,
   ADD_ACCOUNT_SHABA, ADD_ACCOUNT_PHOTO, ADD_DOC_FILES, ADD_DOC_SAVE,
   DELETE_CHOOSE_TYPE, DELETE_CHOOSE_PERSON, DELETE_CONFIRM_PERSON,
   DELETE_CHOOSE_ACCOUNT_FOR_PERSON, DELETE_CHOOSE_ACCOUNT, DELETE_CONFIRM_ACCOUNT,
   CHANGE_CHOOSE_PERSON, CHANGE_CHOOSE_TARGET, CHANGE_PROMPT_PERSON_NAME,
   CHANGE_SAVE_PERSON_NAME, CHANGE_CHOOSE_ACCOUNT, CHANGE_CHOOSE_FIELD,
   CHANGE_PROMPT_FIELD_VALUE, CHANGE_SAVE_FIELD_VALUE]

/-- The 11 states whose generic text rule is registered before (or
without) a Home rule, so the Home text is consumed by the catch-all. -/
def homeShadowedStates : List ConvState :=
  [ADMIN_REMOVE_USER, VIEW_CHOOSE_PERSON, VIEW_CHOOSE_ACCOUNT,
   VIEW_DISPLAY_ACCOUNT_DETAILS, VIEW_CHOOSE_DOCUMENT, ADD_NEW_PERSON_NAME,
   ADD_ACCOUNT_NAME, ADD_ACCOUNT_BANK, ADD_ACCOUNT_NUMBER, ADD_DOC_NAME,
   ADD_DOC_TEXT]

/-- The handler registered under the generic free-text/attachment
catch-all filter in each state (read off the `states` table; `none` when
the state has no catch-all rule). -/
def textCatchAllTag : ConvState → Option HTag
  | ADMIN_ADD_USER_CONFIRM => some .admin_add_user_confirm
  | ADMIN_REMOVE_USER => some .admin_remove_user
  | VIEW_CHOOSE_PERSON => some .view_choose_account
  | VIEW_CHOOSE_ACCOUNT => some .view_display_account_details
  | ADD_NEW_PERSON_NAME => some .add_save_new_person_and_prompt_item_type
  | ADD_CHOOSE_EXISTING_PERSON => some .add_set_existing_person_and_prompt_item_type
  | ADD_ACCOUNT_NAME => some .add_prompt_account_name
  | ADD_ACCOUNT_BANK => some .add_account_get_bank
  | ADD_ACCOUNT_NUMBER => some .add_account_get_number
  | ADD_ACCOUNT_CARD => some .add_account_get_card
  | ADD_ACCOUNT_SHABA => some .add_account_get_shaba
  | ADD_ACCOUNT_PHOTO => some .add_account_get_photo_and_save
  | ADD_DOC_NAME => some .add_get_doc_name
  | ADD_DOC_TEXT => some .add_get_doc_text
  | ADD_DOC_FILES => some .add_get_doc_files
  | ADD_DOC_SAVE => none
  | DELETE_CHOOSE_PERSON => some .delete_confirm_person
  | DELETE_CHOOSE_ACCOUNT_FOR_PERSON => some .delete_choose_account
  | DELETE_CHOOSE_ACCOUNT => some .delete_confirm_account
  | CHANGE_CHOOSE_PERSON => some .change_choose_target
  | CHANGE_PROMPT_PERSON_NAME => some .change_save_person_name
  | CHANGE_CHOOSE_ACCOUNT => some .change_choose_field
  | CHANGE_CHOOSE_FIELD => some .change_prompt_field_value
  | CHANGE_PROMPT_FIELD_VALUE => some .change_save_field_value
  | VIEW_DISPLAY_ACCOUNT_DETAILS => some .view_display_account_details
  | VIEW_CHOOSE_DOCUMENT => some .view_display_document_details
  | _ => none

/-- The inbound text `t` in step `s` is handled by that step's generic
catch-all rule. -/
def triggersCatchAll (s : ConvState) (t : String) : Bool :=
  (matchedTag s (.text t) = textCatchAllTag s) && (textCatchAllTag s).isSome

/-- States that have a catch-all rule but register their reserved-control
rules before it. -/
def ctrlFirstCatchAllStates : List ConvState :=
  [ADMIN_ADD_USER_CONFIRM, ADD_CHOOSE_EXISTING_PERSON, ADD_ACCOUNT_CARD,
   ADD_ACCOUNT_SHABA, ADD_ACCOUNT_PHOTO, DELETE_CHOOSE_PERSON,
   DELETE_CHOOSE_ACCOUNT_FOR_PERSON, DELETE_CHOOSE_ACCOUNT,
   CHANGE_CHOOSE_PERSON, CHANGE_PROMPT_PERSON_NAME, CHANGE_CHOOSE_ACCOUNT,
   CHANGE_CHOOSE_FIELD, CHANGE_PROMPT_FIELD_VALUE]

-- --- Concrete fixtures used by witnesses and counterexamples ---

/-- A benign environment: authorized admin caller, reachable repository,
one person "Ali" with one bank-less account. -/
def env0 : Env where
  isAdminUser := true
  authStatus := some true
  dbConn := true
  userId := 1
  userFirstName := some "Admin"
  userUsername := none
  persons := [(1, "Ali")]
  accountsFor := [(1, none)]
  documentsFor := []
  usersAll := [(1, "Admin")]
  usersNonAdmin := [(2, "Bob")]
  targetUserExists := false
  getChatRes := .notFound
  insertPersonRes := .ok 1
  updatePersonRes := .ok 1
  dbWriteOk := true
  deleteRowcount := 1
  accountRow := some ⟨none, none, none, none, none⟩
  docRow := none
  notifyOk := true
  sendOk := true

/-- `env0` with an unreachable repository. -/
def envNoConn : Env := { env0 with dbConn := false }

/-- A session mid-flow with a stale draft entry. -/
def udC1 : UserData := [("stale_draft", pstr "x")]

/-- A draft at the card step: bank name and account number already
entered. -/
def udC2 : UserData :=
  [("new_account", pdict [("bank_name", pstr "Melli"), ("account_number", pstr "123")])]

/-- A fresh account draft, as `add_prompt_account_name` creates it. -/
def udNA : UserData := [("new_account", pdict [])]

/-- A confirmed person-deletion selection. -/
def udDel : UserData :=
  [("person_to_delete", pdict [("id", pint 1), ("name", pstr "Ali")])]

/-- The view flow just before selecting the all-fields-skipped account:
the account list keyed by `bank_name or 'N/A'`. -/
def udC9 : UserData :=
  [("accounts_list_dict", pdict [("N/A", pint 1)]), ("selected_person_name", pstr "Ali")]

def labels25 : List String := (List.range 25).map (fun i => "L" ++ toString i)

def labels5 : List String := (List.range 5).map (fun i => "L" ++ toString i)

-- ------------------------------- Theorems -------------------------------

/-- Helper: with enough fuel, chunking then flattening is the identity. -/
theorem chunkGo_join (n : Nat) (hn : n ≠ 0) :
    ∀ (f : Nat) (xs : List α), xs.length ≤ f → (chunkGo n f xs).join = xs := by
  intro f
  induction f with
  | zero =>
    intro xs hle
    have : xs = [] := List.eq_nil_of_length_eq_zero (Nat.le_zero.mp hle)
    simp [this, chunkGo]
  | succ f ih =>
    intro xs hle
    rw [chunkGo, if_neg hn]
    by_cases hx : xs.isEmpty
    · rw [if_pos hx]
      rw [List.isEmpty_iff] at hx
      simp [hx]
    · rw [if_neg hx]
      have hlen : (xs.drop n).length ≤ f := by
        simp only [List.length_drop]
        have h0 : 0 < n := Nat.pos_of_ne_zero hn
        omega
      simp [ih (xs.drop n) hlen]

/-- Helper: chunking with a positive row width loses and reorders
nothing. -/
theorem chunkList_join (n : Nat) (hn : n ≠ 0) (xs : List α) :
    (chunkList n xs).join = xs :=
  chunkGo_join n hn xs.length xs (Nat.le_refl _)

/-- Helper: joining a two-line message. -/
theorem intercalate_pair (a b : String) :
    String.intercalate "\n" [a, b] = a ++ "\n" ++ b := by
  show String.intercalate.go a "\n" [b] = a ++ "\n" ++ b
  rw [String.intercalate.go, String.intercalate.go]

/-- Helper: the outcome of `main_menu` under an authorized caller. -/
theorem main_menu_resets (env : Env) (h : env.authStatus = some true) :
    (start env []).next = NextStep.state MAIN_MENU ∧ (start env []).ud = [] := by
  simp [start, h]

/-- Helper: translated characters are fixed points of the translation. -/
theorem translateChar_fixed : ∀ q ∈ PERSIAN_TO_ENGLISH_DIGITS, translateChar q.2 = q.2 := by
  decide

/-- Helper: one application of the digit translation is idempotent
per character. -/
theorem translateChar_idem (c : Char) :
    translateChar (translateChar c) = translateChar c := by
  cases hf : PERSIAN_TO_ENGLISH_DIGITS.find? (fun p => p.1 = c) with
  | some p =>
    have hp : p ∈ PERSIAN_TO_ENGLISH_DIGITS := List.mem_of_find?_eq_some hf
    have h2 : translateChar c = p.2 := by unfold translateChar; rw [hf]
    rw [h2]
    exact translateChar_fixed p hp
  | none =>
    have h2 : translateChar c = c := by unfold translateChar; rw [hf]
    rw [h2, h2]

/-- Claim C4: `build_menu_paginated` slices
`labels[page*page_size : (page+1)*page_size]`, chunks the slice into rows
of `n_cols` preserving order, appends a control row with "previous" iff
`page > 0` and "next" iff labels exist beyond the slice (no row when
neither applies), and appends a Home row unless a supplied footer row
already contains the Home button; concretely, 25 labels with page size 10
show 10 labels and only "next" on page 0, 5 labels and only "previous" on
page 2, and 5 labels on page 0 show no pagination controls. -/
theorem C4_build_menu_paginated (buttons : List String)
    (footer : Option (List (List String))) (page n_cols items_per_page : Nat)
    (hc : 0 < n_cols) (hp : 0 < items_per_page) :
    (build_menu_paginated buttons page n_cols items_per_page footer =
      chunkList n_cols ((buttons.drop (page * items_per_page)).take items_per_page)
        ++ specControlRows buttons.length page items_per_page
        ++ specFooterRows footer)
    ∧ ((chunkList n_cols ((buttons.drop (page * items_per_page)).take items_per_page)).join
        = (buttons.drop (page * items_per_page)).take items_per_page)
    ∧ ((build_menu_paginated labels25 0 2 10 none).join.countP
        (fun b => labels25.contains b) = 10)
    ∧ NEXT_PAGE_BUTTON ∈ (build_menu_paginated labels25 0 2 10 none).join
    ∧ PREV_PAGE_BUTTON ∉ (build_menu_paginated labels25 0 2 10 none).join
    ∧ ((build_menu_paginated labels25 2 2 10 none).join.countP
        (fun b => labels25.contains b) = 5)
    ∧ PREV_PAGE_BUTTON ∈ (build_menu_paginated labels25 2 2 10 none).join
    ∧ NEXT_PAGE_BUTTON ∉ (build_menu_paginated labels25 2 2 10 none).join
    ∧ NEXT_PAGE_BUTTON ∉ (build_menu_paginated labels5 0 2 10 none).join
    ∧ PREV_PAGE_BUTTON ∉ (build_menu_paginated labels5 0 2 10 none).join := by
  refine ⟨?_, ?_, by decide, by decide, by decide, by decide, by decide, by decide,
    by decide, by decide⟩
  · simp only [build_menu_paginated, specControlRows, specFooterRows]
    rcases footer with _ | rows
    · by_cases h1 : page > 0 <;>
        by_cases h2 : page * items_per_page + items_per_page < buttons.length <;>
          simp [h1, h2, List.append_assoc]
    · by_cases hr : rows = [] <;>
        by_cases h1 : page > 0 <;>
          by_cases h2 : page * items_per_page + items_per_page < buttons.length <;>
            simp [h1, h2, hr, List.append_assoc]
  · exact chunkList_join n_cols (by omega) _

/-- Witness for C4: the theorem applied at page 0 of five labels, two
columns, page size 10, no footer. -/
theorem C4_build_menu_paginated_witness :
    build_menu_paginated labels5 0 2 10 none =
      chunkList 2 ((labels5.drop (0 * 10)).take 10)
        ++ specControlRows labels5.length 0 10 ++ specFooterRows none :=
  (C4_build_menu_paginated labels5 none 0 2 10 (by decide) (by decide)).1

/-- Helper: translating a character list twice equals translating once. -/
theorem map_translateChar_idem (l : List Char) :
    (l.map translateChar).map translateChar = l.map translateChar := by
  induction l with
  | nil => rfl
  | cons a l ih => simp [translateChar_idem a, ih]

/-- Claim C10: `persian_to_english_digits` maps every Persian digit (۰-۹)
and Arabic-Indic digit (٠-٩) to the corresponding ASCII digit, leaves
every character outside the translation table unchanged, is idempotent,
and preserves the length of its input. -/
theorem C10_persian_to_english_digits :
    (persian_to_english_digits "۰۱۲۳۴۵۶۷۸۹٠١٢٣٤٥٦٧٨٩" = "01234567890123456789")
    ∧ (∀ c : Char, PERSIAN_TO_ENGLISH_DIGITS.all (fun p => p.1 ≠ c) = true →
        translateChar c = c)
    ∧ (∀ s : String,
        persian_to_english_digits (persian_to_english_digits s)
          = persian_to_english_digits s)
    ∧ (∀ s : String, (persian_to_english_digits s).length = s.length) := by
  refine ⟨by decide, ?_, ?_, ?_⟩
  · intro c h
    have hf : PERSIAN_TO_ENGLISH_DIGITS.find? (fun p => p.1 = c) = none := by
      rw [List.find?_eq_none]
      intro x hx
      have hx2 := List.all_eq_true.mp h x hx
      simpa using hx2
    unfold translateChar
    rw [hf]
  · intro s
    show String.mk ((s.data.map translateChar).map translateChar)
        = String.mk (s.data.map translateChar)
    rw [map_translateChar_idem]
  · intro s
    show (s.data.map translateChar).length = s.data.length
    simp

/-- Witness for C10: the letter `x` is outside the translation table and
is left unchanged. -/
theorem C10_persian_to_english_digits_witness :
    (PERSIAN_TO_ENGLISH_DIGITS.all (fun p => p.1 ≠ 'x') = true) ∧ translateChar 'x' = 'x' :=
  ⟨by decide, C10_persian_to_english_digits.2.1 'x' (by decide)⟩


/-- Claim C1, counterexample: in `ADMIN_REMOVE_USER` the generic text rule
is registered before the Home rule, so pressing Home is parsed as a user
selection, fails, re-prompts the same step, and leaves the draft intact —
the session does not return to `MAIN_MENU` with an empty draft. -/
theorem C1_home_counterexample :
    (dispatch env0 ADMIN_REMOVE_USER (.text HOME_BUTTON) udC1).next
        = NextStep.state ADMIN_REMOVE_USER
    ∧ (dispatch env0 ADMIN_REMOVE_USER (.text HOME_BUTTON) udC1).ud = udC1
    ∧ udC1 ≠ []
    ∧ NextStep.state ADMIN_REMOVE_USER ≠ NextStep.state MAIN_MENU :=
  ⟨rfl, rfl, by simp [udC1], by decide⟩

/-- Claim C1, amended: for each of the 28 steps in `homeResetStates` (the
steps where the Home rule, or the Home fallback, fires before any other
matching rule), delivering the Home press under an authorized caller
yields the root step `MAIN_MENU` with an empty draft, for every draft
contents; in the remaining 11 steps the catch-all consumes the press. -/
theorem C1_home_amended :
    ∀ s ∈ homeResetStates, ∀ (env : Env) (ud : UserData),
      env.authStatus = some true →
      (dispatch env s (.text HOME_BUTTON) ud).next = NextStep.state MAIN_MENU
      ∧ (dispatch env s (.text HOME_BUTTON) ud).ud = [] := by
  intro s hs env ud hauth
  fin_cases hs <;> exact main_menu_resets env hauth

/-- Witness for C1 at the card step with a mid-flow draft. -/
theorem C1_home_amended_witness :
    (dispatch env0 ADD_ACCOUNT_CARD (.text HOME_BUTTON) udC2).next
        = NextStep.state MAIN_MENU
    ∧ (dispatch env0 ADD_ACCOUNT_CARD (.text HOME_BUTTON) udC2).ud = [] :=
  C1_home_amended ADD_ACCOUNT_CARD (by decide) env0 udC2 rfl

/-- Claim C2, counterexample: Back at the card step (whose predecessor is
the account-number step) jumps all the way to `ADD_CHOOSE_PERSON_TYPE`, not
to step N−1, and the draft is left fully intact (nothing is discarded). -/
theorem C2_back_counterexample :
    (dispatch env0 ADD_ACCOUNT_CARD (.text BACK_BUTTON) udC2).next
        = NextStep.state ADD_CHOOSE_PERSON_TYPE
    ∧ NextStep.state ADD_CHOOSE_PERSON_TYPE ≠ NextStep.state ADD_ACCOUNT_NUMBER
    ∧ (dispatch env0 ADD_ACCOUNT_CARD (.text BACK_BUTTON) udC2).ud = udC2 :=
  ⟨rfl, by decide, rfl⟩

/-- Claim C2, amended: in the add-account chain Back never returns to step
N−1 and never discards a draft field: at the card, shaba and photo steps
it jumps to `ADD_CHOOSE_PERSON_TYPE` with the draft unchanged; at the
(unreachable) `ADD_ACCOUNT_NAME` step the catch-all consumes the Back
press and resets the account draft; and at the bank and account-number
steps the catch-all rule consumes the Back press, storing the Back label
itself as the field value and advancing. -/
theorem C2_back_amended :
    (∀ (env : Env) (ud : UserData),
      (dispatch env ADD_ACCOUNT_CARD (.text BACK_BUTTON) ud).next
          = NextStep.state ADD_CHOOSE_PERSON_TYPE
      ∧ (dispatch env ADD_ACCOUNT_CARD (.text BACK_BUTTON) ud).ud = ud)
    ∧ (∀ (env : Env) (ud : UserData),
      (dispatch env ADD_ACCOUNT_SHABA (.text BACK_BUTTON) ud).next
          = NextStep.state ADD_CHOOSE_PERSON_TYPE
      ∧ (dispatch env ADD_ACCOUNT_SHABA (.text BACK_BUTTON) ud).ud = ud)
    ∧ (∀ (env : Env) (ud : UserData),
      (dispatch env ADD_ACCOUNT_PHOTO (.text BACK_BUTTON) ud).next
          = NextStep.state ADD_CHOOSE_PERSON_TYPE
      ∧ (dispatch env ADD_ACCOUNT_PHOTO (.text BACK_BUTTON) ud).ud = ud)
    ∧ (∀ (env : Env) (ud : UserData),
      (dispatch env ADD_ACCOUNT_NAME (.text BACK_BUTTON) ud).next
          = NextStep.state ADD_ACCOUNT_BANK
      ∧ (dispatch env ADD_ACCOUNT_NAME (.text BACK_BUTTON) ud).ud
          = dictSet ud "new_account" (pdict []))
    ∧ (∀ (env : Env) (ud : UserData) (na : List (String × PyVal)),
      dictFind? ud "new_account" = some (pdict na) →
      (dispatch env ADD_ACCOUNT_BANK (.text BACK_BUTTON) ud).next
          = NextStep.state ADD_ACCOUNT_NUMBER
      ∧ (dispatch env ADD_ACCOUNT_BANK (.text BACK_BUTTON) ud).ud
          = dictSet ud "new_account" (pdict (dictSet na "bank_name" (pstr BACK_BUTTON))))
    ∧ (∀ (env : Env) (ud : UserData) (na : List (String × PyVal)),
      dictFind? ud "new_account" = some (pdict na) →
      (dispatch env ADD_ACCOUNT_NUMBER (.text BACK_BUTTON) ud).next
          = NextStep.state ADD_ACCOUNT_CARD
      ∧ (dispatch env ADD_ACCOUNT_NUMBER (.text BACK_BUTTON) ud).ud
          = dictSet ud "new_account" (pdict (dictSet na "account_number" (pstr BACK_BUTTON)))) := by
  refine ⟨fun env ud => ⟨rfl, rfl⟩, fun env ud => ⟨rfl, rfl⟩, fun env ud => ⟨rfl, rfl⟩,
    fun env ud => ⟨rfl, rfl⟩, ?_, ?_⟩
  · intro env ud na h
    show (add_account_get_bank env BACK_BUTTON ud).next = _
      ∧ (add_account_get_bank env BACK_BUTTON ud).ud = _
    rw [add_account_get_bank, h]
    exact ⟨rfl, rfl⟩
  · intro env ud na h
    show (add_account_get_number env BACK_BUTTON ud).next = _
      ∧ (add_account_get_number env BACK_BUTTON ud).ud = _
    rw [add_account_get_number, h]
    exact ⟨rfl, rfl⟩

/-- Witness for C2 at the bank step with a fresh draft: Back is stored as
the bank name. -/
theorem C2_back_amended_witness :
    (dispatch env0 ADD_ACCOUNT_BANK (.text BACK_BUTTON) udNA).next
        = NextStep.state ADD_ACCOUNT_NUMBER
    ∧ (dispatch env0 ADD_ACCOUNT_BANK (.text BACK_BUTTON) udNA).ud
        = dictSet udNA "new_account" (pdict (dictSet [] "bank_name" (pstr BACK_BUTTON))) :=
  C2_back_amended.2.2.2.2.1 env0 udNA [] rfl

/-- Claim C3, counterexample: in `ADD_ACCOUNT_BANK` the generic text rule
is registered before the control-button rules, so the reserved Home label
triggers the catch-all, which stores the Home label as the bank name and
advances to the account-number step. -/
theorem C3_priority_counterexample :
    triggersCatchAll ADD_ACCOUNT_BANK HOME_BUTTON = true
    ∧ (dispatch env0 ADD_ACCOUNT_BANK (.text HOME_BUTTON) udNA).next
        = NextStep.state ADD_ACCOUNT_NUMBER
    ∧ dictFind? (dispatch env0 ADD_ACCOUNT_BANK (.text HOME_BUTTON) udNA).ud "new_account"
        = some (pdict [("bank_name", pstr HOME_BUTTON)]) :=
  ⟨rfl, rfl, rfl⟩

/-- Claim C3, amended: rules are matched in registration order with the
first match winning; in the steps of `ctrlFirstCatchAllStates` the
reserved Home/Back rules precede the catch-all, so those labels never
trigger it, while in the 11 steps of `homeShadowedStates` the catch-all is
registered first and consumes the Home label (reserved labels a step has
no rule for, such as Skip at the card step, are by design consumed by the
catch-all even in the former group). -/
theorem C3_priority_amended :
    (∀ s ∈ ctrlFirstCatchAllStates,
      triggersCatchAll s HOME_BUTTON = false ∧ triggersCatchAll s BACK_BUTTON = false)
    ∧ (∀ s ∈ homeShadowedStates, triggersCatchAll s HOME_BUTTON = true) := by
  constructor
  · intro s hs
    fin_cases hs <;> exact ⟨rfl, rfl⟩
  · intro s hs
    fin_cases hs <;> exact rfl

/-- Witness for C3 at the card step. -/
theorem C3_priority_amended_witness :
    triggersCatchAll ADD_ACCOUNT_CARD HOME_BUTTON = false
    ∧ triggersCatchAll ADD_ACCOUNT_CARD BACK_BUTTON = false :=
  C3_priority_amended.1 ADD_ACCOUNT_CARD (by decide)

/-- Claim C5, counterexample: the input `" 4111111111111111"` (17
characters, so not itself 16 digits) is a non-Skip input, yet the card
step accepts it — the handler validates and stores the *stripped* text, so
it advances to the shaba step and writes the draft instead of re-prompting
with the draft unmodified. -/
theorem C5_card_counterexample :
    (" 4111111111111111" ≠ SKIP_BUTTON)
    ∧ (add_account_get_card env0 " 4111111111111111" udNA).next
        = NextStep.state ADD_ACCOUNT_SHABA
    ∧ NextStep.state ADD_ACCOUNT_SHABA ≠ NextStep.state ADD_ACCOUNT_CARD
    ∧ dictFind? (add_account_get_card env0 " 4111111111111111" udNA).ud "new_account"
        = some (pdict [("card_number", pstr "4111111111111111")])
    ∧ dictFind? udNA "new_account" = some (pdict [])
    ∧ ([("card_number", pstr "4111111111111111")] ≠ ([] : List (String × PyVal))) :=
  ⟨by decide, rfl, by decide, rfl, rfl, by simp⟩

/-- Claim C5, amended: the card step accepts exactly the non-Skip inputs
whose whitespace-stripped form is empty or matches `(4|5|6)\d{15}` (16
digits, first digit 4, 5 or 6), storing the stripped value; every other
non-Skip input re-prompts `ADD_ACCOUNT_CARD` with the draft unmodified;
Skip stores `None` without validation; the five concrete vectors behave
as the spec lists. -/
theorem C5_card_validation_amended :
    (∀ (env : Env) (ud : UserData) (na : List (String × PyVal)),
      dictFind? ud "new_account" = some (pdict na) →
      (add_account_get_card env SKIP_BUTTON ud).next = NextStep.state ADD_ACCOUNT_SHABA
      ∧ (add_account_get_card env SKIP_BUTTON ud).ud
          = dictSet ud "new_account" (pdict (dictSet na "card_number" pnone)))
    ∧ (∀ (env : Env) (text : String) (ud : UserData) (na : List (String × PyVal)),
      dictFind? ud "new_account" = some (pdict na) →
      text ≠ SKIP_BUTTON →
      (pyStrip text = "" ∨ re_fullmatch_card (pyStrip text) = true) →
      (add_account_get_card env text ud).next = NextStep.state ADD_ACCOUNT_SHABA
      ∧ (add_account_get_card env text ud).ud
          = dictSet ud "new_account" (pdict (dictSet na "card_number" (pstr (pyStrip text)))))
    ∧ (∀ (env : Env) (text : String) (ud : UserData),
      text ≠ SKIP_BUTTON →
      pyStrip text ≠ "" →
      re_fullmatch_card (pyStrip text) = false →
      (add_account_get_card env text ud).next = NextStep.state ADD_ACCOUNT_CARD
      ∧ (add_account_get_card env text ud).ud = ud
      ∧ (add_account_get_card env text ud).msgs ≠ [])
    ∧ (add_account_get_card env0 "4111111111111111" udNA).next = NextStep.state ADD_ACCOUNT_SHABA
    ∧ (add_account_get_card env0 "5111111111111111" udNA).next = NextStep.state ADD_ACCOUNT_SHABA
    ∧ (add_account_get_card env0 "6111111111111111" udNA).next = NextStep.state ADD_ACCOUNT_SHABA
    ∧ (add_account_get_card env0 "3111111111111111" udNA).next = NextStep.state ADD_ACCOUNT_CARD
    ∧ (add_account_get_card env0 "3111111111111111" udNA).ud = udNA
    ∧ (add_account_get_card env0 "411111111111111" udNA).next = NextStep.state ADD_ACCOUNT_CARD
    ∧ (add_account_get_card env0 "411111111111111" udNA).ud = udNA
    ∧ dictFind? (add_account_get_card env0 SKIP_BUTTON udNA).ud "new_account"
        = some (pdict [("card_number", pnone)]) := by
  refine ⟨?_, ?_, ?_, rfl, rfl, rfl, rfl, rfl, rfl, rfl, rfl⟩
  · intro env ud na h
    simp [add_account_get_card, h, pyTruthy]
  · intro env text ud na h hne hv
    rcases hv with hv | hv <;>
      simp [add_account_get_card, h, hne, hv, pyTruthy, pyStr]
  · intro env text ud hne h1 h2
    simp [add_account_get_card, hne, h1, h2, pyTruthy, pyStr]

/-- Witness for C5: a rejected 15-digit input re-prompts with the draft
untouched. -/
theorem C5_card_validation_amended_witness :
    (add_account_get_card env0 "123" udC2).next = NextStep.state ADD_ACCOUNT_CARD
    ∧ (add_account_get_card env0 "123" udC2).ud = udC2
    ∧ (add_account_get_card env0 "123" udC2).msgs ≠ [] :=
  C5_card_validation_amended.2.2.1 env0 "123" udC2 (by decide) (by decide) (by decide)

/-- Claim C6, counterexample: the input `" 123456789012345678901234"` (25
characters, so not itself 24 digits) is a non-Skip input, yet the shaba
step accepts it — the handler validates and stores the *stripped* text, so
it advances to the photo step instead of re-prompting. -/
theorem C6_shaba_counterexample :
    (" 123456789012345678901234" ≠ SKIP_BUTTON)
    ∧ (add_account_get_shaba env0 " 123456789012345678901234" udNA).next
        = NextStep.state ADD_ACCOUNT_PHOTO
    ∧ NextStep.state ADD_ACCOUNT_PHOTO ≠ NextStep.state ADD_ACCOUNT_SHABA
    ∧ dictFind? (add_account_get_shaba env0 " 123456789012345678901234" udNA).ud "new_account"
        = some (pdict [("shaba_number", pstr "123456789012345678901234")]) :=
  ⟨by decide, rfl, by decide, rfl⟩

/-- Claim C6, amended: the shaba step accepts exactly the non-Skip inputs
whose whitespace-stripped form is empty or matches `\d{24}` (24 decimal
digits), storing the stripped value and advancing to the photo step; every
other non-Skip input re-prompts `ADD_ACCOUNT_SHABA` with the draft
unmodified; a 24-digit string is accepted, a 23-digit string and a
24-character string containing a letter are rejected. -/
theorem C6_shaba_validation_amended :
    (∀ (env : Env) (ud : UserData) (na : List (String × PyVal)),
      dictFind? ud "new_account" = some (pdict na) →
      (add_account_get_shaba env SKIP_BUTTON ud).next = NextStep.state ADD_ACCOUNT_PHOTO
      ∧ (add_account_get_shaba env SKIP_BUTTON ud).ud
          = dictSet ud "new_account" (pdict (dictSet na "shaba_number" pnone)))
    ∧ (∀ (env : Env) (text : String) (ud : UserData) (na : List (String × PyVal)),
      dictFind? ud "new_account" = some (pdict na) →
      text ≠ SKIP_BUTTON →
      (pyStrip text = "" ∨ re_fullmatch_shaba (pyStrip text) = true) →
      (add_account_get_shaba env text ud).next = NextStep.state ADD_ACCOUNT_PHOTO
      ∧ (add_account_get_shaba env text ud).ud
          = dictSet ud "new_account" (pdict (dictSet na "shaba_number" (pstr (pyStrip text)))))
    ∧ (∀ (env : Env) (text : String) (ud : UserData),
      text ≠ SKIP_BUTTON →
      pyStrip text ≠ "" →
      re_fullmatch_shaba (pyStrip text) = false →
      (add_account_get_shaba env text ud).next = NextStep.state ADD_ACCOUNT_SHABA
      ∧ (add_account_get_shaba env text ud).ud = ud
      ∧ (add_account_get_shaba env text ud).msgs ≠ [])
    ∧ (add_account_get_shaba env0 "123456789012345678901234" udNA).next
        = NextStep.state ADD_ACCOUNT_PHOTO
    ∧ (add_account_get_shaba env0 "12345678901234567890123" udNA).next
        = NextStep.state ADD_ACCOUNT_SHABA
    ∧ (add_account_get_shaba env0 "12345678901234567890123" udNA).ud = udNA
    ∧ (add_account_get_shaba env0 "1234567890123456789012ab" udNA).next
        = NextStep.state ADD_ACCOUNT_SHABA
    ∧ (add_account_get_shaba env0 "1234567890123456789012ab" udNA).ud = udNA := by
  refine ⟨?_, ?_, ?_, rfl, rfl, rfl, rfl, rfl⟩
  · intro env ud na h
    simp [add_account_get_shaba, h, pyTruthy]
  · intro env text ud na h hne hv
    rcases hv with hv | hv <;>
      simp [add_account_get_shaba, h, hne, hv, pyTruthy, pyStr]
  · intro env text ud hne h1 h2
    simp [add_account_get_shaba, hne, h1, h2, pyTruthy, pyStr]

/-- Witness for C6: a rejected 23-digit input re-prompts with the draft
untouched. -/
theorem C6_shaba_validation_amended_witness :
    (add_account_get_shaba env0 "12345678901234567890123" udC2).next
        = NextStep.state ADD_ACCOUNT_SHABA
    ∧ (add_account_get_shaba env0 "12345678901234567890123" udC2).ud = udC2
    ∧ (add_account_get_shaba env0 "12345678901234567890123" udC2).msgs ≠ [] :=
  C6_shaba_validation_amended.2.2.1 env0 "12345678901234567890123" udC2
    (by decide) (by decide) (by decide)

/-- Claim C7: when the repository reports a duplicate person name
(`psycopg2.IntegrityError`), the handler reports the error inline and
re-prompts `ADD_NEW_PERSON_NAME`, leaving the whole session draft exactly
as it was. -/
theorem C7_duplicate_person_name (env : Env) (text : String) (ud : UserData)
    (hconn : env.dbConn = true) (hdup : env.insertPersonRes = .dup)
    (hname : pyStrip text ≠ "") :
    (add_save_new_person_and_prompt_item_type env text ud).next
        = NextStep.state ADD_NEW_PERSON_NAME
    ∧ (add_save_new_person_and_prompt_item_type env text ud).ud = ud
    ∧ "❌ شخصی با این نام وجود دارد."
        ∈ (add_save_new_person_and_prompt_item_type env text ud).msgs := by
  simp [add_save_new_person_and_prompt_item_type, hname, hconn, hdup]

/-- Witness for C7: a duplicate "Ali" mid-draft. -/
theorem C7_duplicate_person_name_witness :
    (add_save_new_person_and_prompt_item_type { env0 with insertPersonRes := .dup }
        "Ali" udC1).next = NextStep.state ADD_NEW_PERSON_NAME
    ∧ (add_save_new_person_and_prompt_item_type { env0 with insertPersonRes := .dup }
        "Ali" udC1).ud = udC1
    ∧ "❌ شخصی با این نام وجود دارد."
        ∈ (add_save_new_person_and_prompt_item_type { env0 with insertPersonRes := .dup }
            "Ali" udC1).msgs :=
  C7_duplicate_person_name { env0 with insertPersonRes := .dup } "Ali" udC1
    rfl rfl (by decide)

/-- Claim C8, counterexample: with the repository unreachable,
`delete_execute_person_deletion` sends no transient-error message at all
(its only output is the edit-menu prompt of the `edit_menu` tail call) and
lands in `EDIT_MENU`, not the main menu. -/
theorem C8_connectivity_counterexample :
    (delete_execute_person_deletion envNoConn udDel).next = NextStep.state EDIT_MENU
    ∧ NextStep.state EDIT_MENU ≠ NextStep.state MAIN_MENU
    ∧ (delete_execute_person_deletion envNoConn udDel).msgs = ["منوی ویرایش:"] :=
  ⟨rfl, by decide, rfl⟩

/-- Claim C8, amended: every modelled connectivity-failure branch lands in
a defined step, but the behaviour is not uniform: the two delete-execute
handlers, the new-person save and the admin remove-user prompt route
*silently* to the edit/admin menu with no error message, while the
account-detail view reports the error and routes to `MAIN_MENU`. -/
theorem C8_connectivity_amended :
    (∀ (env : Env) (ud : UserData), env.dbConn = false → env.isAdminUser = true →
      (delete_execute_person_deletion env ud).next = NextStep.state EDIT_MENU
      ∧ (delete_execute_person_deletion env ud).msgs = ["منوی ویرایش:"])
    ∧ (∀ (env : Env) (ud : UserData), env.dbConn = false → env.isAdminUser = true →
      (delete_execute_account_deletion env ud).next = NextStep.state EDIT_MENU
      ∧ (delete_execute_account_deletion env ud).msgs = ["منوی ویرایش:"])
    ∧ (∀ (env : Env) (text : String) (ud : UserData),
      env.dbConn = false → env.isAdminUser = true → pyStrip text ≠ "" →
      (add_save_new_person_and_prompt_item_type env text ud).next
          = NextStep.state EDIT_MENU
      ∧ (add_save_new_person_and_prompt_item_type env text ud).msgs = ["منوی ویرایش:"])
    ∧ (∀ (env : Env) (ud : UserData), env.dbConn = false → env.isAdminUser = true →
      (admin_prompt_remove_user env ud).next = NextStep.state ADMIN_MENU
      ∧ (admin_prompt_remove_user env ud).msgs = ["منوی ادمین:"])
    ∧ (∀ (env : Env) (key : String) (ud : UserData) (d : List (String × PyVal)),
      dictFind? ud "accounts_list_dict" = some (pdict d) →
      pyTruthy (dictGetD d key pnone) = true →
      env.dbConn = false →
      (view_display_account_details env key ud).next = NextStep.state MAIN_MENU
      ∧ (view_display_account_details env key ud).msgs
          = ["خطا در اتصال به پایگاه داده."]) := by
  refine ⟨?_, ?_, ?_, ?_, ?_⟩
  · intro env ud hconn hadm
    by_cases hp : pyTruthy (dictGetD ud "person_to_delete" pnone) <;>
      simp [delete_execute_person_deletion, edit_menu, hconn, hadm, hp]
  · intro env ud hconn hadm
    by_cases hp : pyTruthy (dictGetD ud "account_to_delete" pnone) <;>
      simp [delete_execute_account_deletion, edit_menu, hconn, hadm, hp]
  · intro env text ud hconn hadm hname
    simp [add_save_new_person_and_prompt_item_type, edit_menu, hconn, hadm, hname]
  · intro env ud hconn hadm
    simp [admin_prompt_remove_user, admin_menu, hconn, hadm]
  · intro env key ud d hsel hkey hconn
    simp only [dictGetD] at hkey
    simp [view_display_account_details, dictGetD, hsel, hkey, hconn]

/-- Witness for C8: the person-deletion handler with an unreachable
repository. -/
theorem C8_connectivity_amended_witness :
    (delete_execute_person_deletion envNoConn udDel).next = NextStep.state EDIT_MENU
    ∧ (delete_execute_person_deletion envNoConn udDel).msgs = ["منوی ویرایش:"] :=
  C8_connectivity_amended.1 envNoConn udDel rfl rfl

/-- Claim C9, counterexample: selecting the all-fields-skipped account
renders a message that *does* contain a bank line — it reads `🏦 N/A` —
while the account-number, card and shaba lines are absent and no
photo-send call is made. -/
theorem C9_skipped_account_counterexample :
    (view_display_account_details env0 "N/A" udC9).msgs = ["👤 اطلاعات حساب (Ali)\n🏦 N/A"]
    ∧ "🏦 N/A" ∈ splitLines (((view_display_account_details env0 "N/A" udC9).msgs).headD "")
    ∧ (view_display_account_details env0 "N/A" udC9).photos = [] :=
  ⟨rfl, by decide, rfl⟩

/-- Claim C9, amended: for an account whose five optional columns are all
NULL, the detail message consists of exactly the header line and a bank
line reading `🏦 N/A` (the bank line is always emitted, with `N/A` as the
fallback); no account-number, card-number or shaba line appears and no
photo-send call is made; the next step is `VIEW_ACCOUNT_DETAILS`. -/
theorem C9_skipped_account_amended (env : Env) (key nm : String) (ud : UserData)
    (d : List (String × PyVal))
    (hsel : dictFind? ud "accounts_list_dict" = some (pdict d))
    (hkey : pyTruthy (dictGetD d key pnone) = true)
    (hconn : env.dbConn = true)
    (hrow : env.accountRow = some ⟨none, none, none, none, none⟩)
    (hnm : dictFind? ud "selected_person_name" = some (pstr nm)) :
    (view_display_account_details env key ud).msgs
        = ["👤 اطلاعات حساب (" ++ htmlEscape nm ++ ")" ++ "\n" ++ "🏦 N/A"]
    ∧ (view_display_account_details env key ud).photos = []
    ∧ (view_display_account_details env key ud).next
        = NextStep.state VIEW_ACCOUNT_DETAILS := by
  simp only [dictGetD] at hkey
  have hna : htmlEscape "N/A" = "N/A" := rfl
  have hline : "🏦 " ++ "N/A" = "🏦 N/A" := rfl
  simp [view_display_account_details, dictGetD, hsel, hkey, hconn, hrow, hnm, mono,
    pyStr, intercalate_pair, hna, hline]

/-- Witness for C9 at the concrete all-skipped account. -/
theorem C9_skipped_account_amended_witness :
    (view_display_account_details env0 "N/A" udC9).msgs
        = ["👤 اطلاعات حساب (" ++ htmlEscape "Ali" ++ ")" ++ "\n" ++ "🏦 N/A"]
    ∧ (view_display_account_details env0 "N/A" udC9).photos = []
    ∧ (view_display_account_details env0 "N/A" udC9).next
        = NextStep.state VIEW_ACCOUNT_DETAILS :=
  C9_skipped_account_amended env0 "N/A" "Ali" udC9 [("N/A", pint 1)] rfl rfl rfl rfl rfl
